import Mathlib

/-!
Verification of the RDT file-transfer implementation (tp1_redes).

The development shallowly embeds the Python sources:
  * src/src/lib/helpers/message.py   — CRC32-in-header packet codec ("lib" codec)
  * src/src/helpers/message.py       — MD5-digest-appended packet codec ("helpers" codec)
  * src/src/lib/protocols/stop_and_wait.py
  * src/src/lib/protocols/selective_repeat.py
  * src/src/lib/server/main.py
  * src/src/lib/client/main.py

Bytes are `Nat` values < 256, byte strings are `List Nat`.  Machine integers
are `Nat` with explicit bounds; Python's floored `%` on possibly negative
integers is modelled with `Int.fmod`.  Socket, clock and file-system effects
are made explicit: incoming datagrams and timeout comparisons become oracle
parameters, the file system becomes an association list from paths to byte
strings, and functions that can raise (struct/int overflow, parse failure)
return `Option`.
-/

/-! ## Byte-string primitives -/

/-- Python `data[i:j]` on a byte string (clamping semantics of slices). -/
def pySlice (data : List Nat) (i j : Nat) : List Nat :=
  (data.drop i).take (j - i)

/-- Big-endian serialization of `v` into exactly `n` bytes
(the in-range core of `int.to_bytes(n, 'big')`). -/
def toBytesBE : Nat → Nat → List Nat
  | 0, _ => []
  | n + 1, v => toBytesBE n (v / 256) ++ [v % 256]

/-- Python `v.to_bytes(n, 'big')`: raises `OverflowError` (here `none`)
when `v` does not fit in `n` bytes. -/
def pyToBytesBE (n v : Nat) : Option (List Nat) :=
  if v < 2 ^ (8 * n) then some (toBytesBE n v) else none

/-- Python `int.from_bytes(data, 'big')`. -/
def fromBytesBE (data : List Nat) : Nat :=
  data.foldl (fun acc b => 256 * acc + b) 0

/-- Little-endian serialization into exactly `n` bytes (used by MD5). -/
def toBytesLE : Nat → Nat → List Nat
  | 0, _ => []
  | n + 1, v => v % 256 :: toBytesLE n (v / 256)

/-- Little-endian byte decoding (used by MD5 word loading). -/
def fromBytesLE (data : List Nat) : Nat :=
  data.foldr (fun b acc => b + 256 * acc) 0

/-! ## zlib.crc32

`zlib.crc32(data)` with the default starting value: the register is
initialised to `0xFFFFFFFF`, each byte is xored into the register which is
then shifted eight times through the reflected polynomial `0xEDB88320`, and
the result is finally xored with `0xFFFFFFFF`. -/

def crcPoly : Nat := 0xEDB88320

/-- One bit-step of the reflected CRC-32 register. -/
def crcShift (x : Nat) : Nat :=
  (x >>> 1) ^^^ (if x % 2 = 1 then crcPoly else 0)

/-- Iterated register steps. -/
def crcIter : Nat → Nat → Nat
  | 0, x => x
  | n + 1, x => crcIter n (crcShift x)

/-- Absorb one message byte into the register. -/
def crcUpdate (c b : Nat) : Nat := crcIter 8 (c ^^^ b)

/-- Run the register over a byte string. -/
def crcReg : List Nat → Nat → Nat
  | [], c => c
  | b :: bs, c => crcReg bs (crcUpdate c b)

/-- `zlib.crc32 data` (default start value 0). -/
def crc32 (data : List Nat) : Nat :=
  crcReg data 0xFFFFFFFF ^^^ 0xFFFFFFFF

/-! ## Packet data model

Shared by both codec drafts: `RDTHeader.FORMAT = '!IIHH'`, flags
`SYN=0x01, ACK=0x02, FIN=0x04, DATA=0x08, ERR=0x10`. -/

def flagSYN : Nat := 0x01
def flagACK : Nat := 0x02
def flagFIN : Nat := 0x04
def flagDATA : Nat := 0x08
def flagERR : Nat := 0x10

structure RDTHeader where
  sequence_number : Nat
  ack_number : Nat
  flags : Nat
  data_length : Nat
deriving DecidableEq, Repr

structure RDTPacket where
  header : RDTHeader
  payload : List Nat
deriving DecidableEq, Repr

/-- `RDTPacket.has_flag`: `(self.header.flags & flag) == flag`. -/
def hasFlag (p : RDTPacket) (flag : Nat) : Bool :=
  p.header.flags &&& flag == flag

/-- `RDTPacket.set_flag`: `self.header.flags |= flag`. -/
def setFlag (p : RDTPacket) (flag : Nat) : RDTPacket :=
  { p with header := { p.header with flags := p.header.flags ||| flag } }

/-! ## The lib codec (src/src/lib/helpers/message.py)

`RDTPacket.__init__(self, payload=b'')` builds a fresh zero header and sets
`data_length = len(payload)`.  Crucially, `from_bytes` and the typed
constructors instead assign `self.payload` directly on a packet built as
`cls()`, so their `data_length` stays 0. -/

/-- `RDTPacket(payload)` of the lib codec. -/
def libPacketNew (payload : List Nat) : RDTPacket :=
  { header := { sequence_number := 0, ack_number := 0, flags := 0,
                data_length := payload.length },
    payload := payload }

/-- `RDTPacket.calculate_checksum`: CRC32 over seq(4) ++ ack(4) ++ flags(2)
++ payload, masked to 32 bits.  `none` models the `OverflowError` raised by
`to_bytes` on out-of-range fields. -/
def libCalculateChecksum (p : RDTPacket) : Option Nat := do
  let s ← pyToBytesBE 4 p.header.sequence_number
  let a ← pyToBytesBE 4 p.header.ack_number
  let f ← pyToBytesBE 2 p.header.flags
  return crc32 (s ++ a ++ f ++ p.payload) &&& 0xFFFFFFFF

/-- `RDTPacket.to_bytes` of the lib codec: seq(4) ++ ack(4) ++ flags(2) ++
checksum(4) ++ len(payload)(2) ++ payload. -/
def libToBytes (p : RDTPacket) : Option (List Nat) := do
  let checksum ← libCalculateChecksum p
  let s ← pyToBytesBE 4 p.header.sequence_number
  let a ← pyToBytesBE 4 p.header.ack_number
  let f ← pyToBytesBE 2 p.header.flags
  let c ← pyToBytesBE 4 checksum
  let l ← pyToBytesBE 2 p.payload.length
  return s ++ a ++ f ++ c ++ l ++ p.payload

/-- `RDTPacket.from_bytes` of the lib codec.  Parses the five fields,
bounds-checks the length, recomputes the checksum over a temporary packet
(whose `data_length` is left at 0 by `cls()`), and rejects on mismatch.
The final packet is again built as `cls()` with `payload` assigned directly,
so its `data_length` is 0. -/
def libFromBytes (data : List Nat) : Option RDTPacket :=
  if data.length < 16 then none
  else
    let seq_num := fromBytesBE (pySlice data 0 4)
    let ack_num := fromBytesBE (pySlice data 4 8)
    let flags := fromBytesBE (pySlice data 8 10)
    let received_checksum := fromBytesBE (pySlice data 10 14)
    let payload_len := fromBytesBE (pySlice data 14 16)
    if data.length < 16 + payload_len then none
    else
      let payload := pySlice data 16 (16 + payload_len)
      let temp : RDTPacket :=
        { header := { sequence_number := seq_num, ack_number := ack_num,
                      flags := flags, data_length := 0 },
          payload := payload }
      match libCalculateChecksum temp with
      | none => none
      | some calculated =>
          if calculated ≠ received_checksum then none
          else some temp

/-- lib `create_data_packet`: `RDTPacket()` then field assignments; the
direct `packet.payload = payload` leaves `data_length` at 0. -/
def libCreateDataPacket (seq_num : Nat) (payload : List Nat) : RDTPacket :=
  { header := { sequence_number := seq_num, ack_number := 0,
                flags := flagDATA, data_length := 0 },
    payload := payload }

/-- lib `create_ack_packet(ack_num, seq_num=0)`. -/
def libCreateAckPacket (ack_num : Nat) (seq_num : Nat := 0) : RDTPacket :=
  { header := { sequence_number := seq_num, ack_number := ack_num,
                flags := flagACK, data_length := 0 },
    payload := [] }

/-- lib `create_end_packet(ack_num, seq_num=0)` (its `ack_num` argument is
unused by the source: `ack_number` stays 0). -/
def libCreateEndPacket (_ack_num : Nat) (seq_num : Nat := 0) : RDTPacket :=
  { header := { sequence_number := seq_num, ack_number := 0,
                flags := flagFIN, data_length := 0 },
    payload := [] }

/-! ## hashlib.md5 (RFC 1321)

Used by the helpers codec as `hashlib.md5(payload).hexdigest().encode('ascii')`.
Words are `Nat` values kept below `2^32` by explicit reductions. -/

def md5K : List Nat :=
  [0xd76aa478, 0xe8c7b756, 0x242070db, 0xc1bdceee,
   0xf57c0faf, 0x4787c62a, 0xa8304613, 0xfd469501,
   0x698098d8, 0x8b44f7af, 0xffff5bb1, 0x895cd7be,
   0x6b901122, 0xfd987193, 0xa679438e, 0x49b40821,
   0xf61e2562, 0xc040b340, 0x265e5a51, 0xe9b6c7aa,
   0xd62f105d, 0x02441453, 0xd8a1e681, 0xe7d3fbc8,
   0x21e1cde6, 0xc33707d6, 0xf4d50d87, 0x455a14ed,
   0xa9e3e905, 0xfcefa3f8, 0x676f02d9, 0x8d2a4c8a,
   0xfffa3942, 0x8771f681, 0x6d9d6122, 0xfde5380c,
   0xa4beea44, 0x4bdecfa9, 0xf6bb4b60, 0xbebfbc70,
   0x289b7ec6, 0xeaa127fa, 0xd4ef3085, 0x04881d05,
   0xd9d4d039, 0xe6db99e5, 0x1fa27cf8, 0xc4ac5665,
   0xf4292244, 0x432aff97, 0xab9423a7, 0xfc93a039,
   0x655b59c3, 0x8f0ccc92, 0xffeff47d, 0x85845dd1,
   0x6fa87e4f, 0xfe2ce6e0, 0xa3014314, 0x4e0811a1,
   0xf7537e82, 0xbd3af235, 0x2ad7d2bb, 0xeb86d391]

def md5S : List Nat :=
  [7, 12, 17, 22, 7, 12, 17, 22, 7, 12, 17, 22, 7, 12, 17, 22,
   5, 9, 14, 20, 5, 9, 14, 20, 5, 9, 14, 20, 5, 9, 14, 20,
   4, 11, 16, 23, 4, 11, 16, 23, 4, 11, 16, 23, 4, 11, 16, 23,
   6, 10, 15, 21, 6, 10, 15, 21, 6, 10, 15, 21, 6, 10, 15, 21]

/-- 32-bit left rotation. -/
def rotl32 (x s : Nat) : Nat :=
  ((x <<< s) ||| (x >>> (32 - s))) % 4294967296

/-- 32-bit complement. -/
def not32 (x : Nat) : Nat := 0xFFFFFFFF ^^^ x

/-- The round function and message index for round `i`. -/
def md5Mix (i b c d : Nat) : Nat × Nat :=
  if i < 16 then ((b &&& c) ||| (not32 b &&& d), i)
  else if i < 32 then ((d &&& b) ||| (not32 d &&& c), (5 * i + 1) % 16)
  else if i < 48 then (b ^^^ c ^^^ d, (3 * i + 5) % 16)
  else (c ^^^ (b ||| not32 d), (7 * i) % 16)

/-- One of the 64 MD5 operations on state `(a, b, c, d)` for chunk words `m`. -/
def md5Op (m : List Nat) (st : Nat × Nat × Nat × Nat) (i : Nat) :
    Nat × Nat × Nat × Nat :=
  let (a, b, c, d) := st
  let (f, g) := md5Mix i b c d
  let rot := rotl32 ((a + f + md5K.getD i 0 + m.getD g 0) % 4294967296)
    (md5S.getD i 0)
  (d, (b + rot) % 4294967296, b, c)

/-- Split a byte string into the sixteen little-endian 32-bit words of one
64-byte chunk. -/
def md5Words (chunk : List Nat) : List Nat :=
  (List.range 16).map fun j => fromBytesLE (pySlice chunk (4 * j) (4 * j + 4))

/-- Process one 64-byte chunk. -/
def md5Chunk (st : Nat × Nat × Nat × Nat) (chunk : List Nat) :
    Nat × Nat × Nat × Nat :=
  let m := md5Words chunk
  let (a, b, c, d) := (List.range 64).foldl (md5Op m) st
  ((st.1 + a) % 4294967296, (st.2.1 + b) % 4294967296,
   (st.2.2.1 + c) % 4294967296, (st.2.2.2 + d) % 4294967296)

/-- Fuel-bounded worker for `md5Chunks`. -/
def md5ChunksGo : Nat → List Nat → List (List Nat)
  | 0, _ => []
  | _, [] => []
  | fuel + 1, b :: rest =>
    (b :: rest).take 64 :: md5ChunksGo fuel ((b :: rest).drop 64)

/-- Cut a byte string into 64-byte chunks (`data.length` steps always
suffice, since every step consumes at least one byte). -/
def md5Chunks (data : List Nat) : List (List Nat) :=
  md5ChunksGo data.length data

/-- MD5 padding: `0x80`, zeros to 56 mod 64, then the bit length as eight
little-endian bytes. -/
def md5Pad (data : List Nat) : List Nat :=
  let l := data.length
  let zeros := (56 + 64 - (l + 1) % 64) % 64
  data ++ [0x80] ++ List.replicate zeros 0 ++ toBytesLE 8 ((8 * l) % 2 ^ 64)

/-- The sixteen digest bytes of `hashlib.md5(data).digest()`. -/
def md5Digest (data : List Nat) : List Nat :=
  let (a, b, c, d) :=
    (md5Chunks (md5Pad data)).foldl md5Chunk
      (0x67452301, 0xefcdab89, 0x98badcfe, 0x10325476)
  toBytesLE 4 a ++ toBytesLE 4 b ++ toBytesLE 4 c ++ toBytesLE 4 d

/-- One lowercase ASCII hex character for a value below 16. -/
def hexCharLower (n : Nat) : Nat := if n < 10 then 48 + n else 87 + n

/-- `hashlib.md5(data).hexdigest().encode('ascii')`: 32 ASCII bytes. -/
def md5Hex (data : List Nat) : List Nat :=
  (md5Digest data).flatMap fun b => [hexCharLower (b / 16), hexCharLower (b % 16)]

/-! ## The helpers codec (src/src/helpers/message.py)

Here `RDTPacket.__init__(self, header, payload=b'')` stores the given header
and sets `header.data_length = len(payload)`; `to_bytes` appends the MD5 hex
digest of the payload after the payload. -/

/-- `RDTHeader.to_bytes`: `struct.pack('!IIHH', ...)`; `none` models the
`struct.error` raised on out-of-range fields. -/
def helpersHeaderToBytes (h : RDTHeader) : Option (List Nat) := do
  let s ← pyToBytesBE 4 h.sequence_number
  let a ← pyToBytesBE 4 h.ack_number
  let f ← pyToBytesBE 2 h.flags
  let d ← pyToBytesBE 2 h.data_length
  return s ++ a ++ f ++ d

/-- `RDTPacket(header, payload)` of the helpers codec: keeps the header but
overwrites its `data_length` with `len(payload)`. -/
def helpersPacketNew (header : RDTHeader) (payload : List Nat) : RDTPacket :=
  { header := { header with data_length := payload.length }, payload := payload }

/-- helpers `RDTPacket.to_bytes`: header ++ payload ++ MD5-hex(payload). -/
def helpersToBytes (p : RDTPacket) : Option (List Nat) := do
  let h ← helpersHeaderToBytes p.header
  return h ++ p.payload ++ md5Hex p.payload

/-- helpers `RDTPacket.from_bytes`: requires at least 12 + 32 bytes, reads
the header, slices `data[12 : 12 + data_length]` as payload, takes the last
32 bytes as the stored digest, and rebuilds the packet through `__init__`
(which resets `data_length` to the actual payload length).  Returns the
packet together with its `_stored_hash`. -/
def helpersFromBytes (data : List Nat) : Option (RDTPacket × List Nat) :=
  if data.length < 12 + 32 then none
  else
    let header : RDTHeader :=
      { sequence_number := fromBytesBE (pySlice data 0 4)
        ack_number := fromBytesBE (pySlice data 4 8)
        flags := fromBytesBE (pySlice data 8 10)
        data_length := fromBytesBE (pySlice data 10 12) }
    let payload := pySlice data 12 (12 + header.data_length)
    let expected_hash := data.drop (data.length - 32)
    some (helpersPacketNew header payload, expected_hash)

/-- helpers `RDTPacket.verify_integrity` on a decoded packet: the stored
digest equals the digest recomputed over the payload. -/
def helpersVerifyIntegrity (stored_hash : List Nat) (payload : List Nat) : Bool :=
  stored_hash == md5Hex payload

/-- helpers `create_data_packet(seq_num, data)`. -/
def helpersCreateDataPacket (seq_num : Nat) (data : List Nat) : RDTPacket :=
  helpersPacketNew
    { sequence_number := seq_num, ack_number := 0, flags := flagDATA,
      data_length := 0 } data

/-! ## Stop-and-Wait engine (src/src/lib/protocols/stop_and_wait.py) -/

/-- Python `x % 2` on a possibly negative `int` (floored modulus). -/
def pyMod2 (x : Int) : Nat := (Int.fmod x 2).toNat

/-- `StopAndWaitProtocol.on_data` (lines 142-152).  The receiver state is
`expected_seq`; the result is the source's
`(ack_num, data_to_write, expected_seq)` triple, with the updated
`expected_seq` also being the new state. -/
def swOnData (expected_seq : Nat) (packet : RDTPacket) : Nat × List Nat × Nat :=
  if packet.header.sequence_number = expected_seq then
    (packet.header.sequence_number, packet.payload, (expected_seq + 1) % 2)
  else
    (pyMod2 ((expected_seq : Int) - 1), [], expected_seq)

/-- Fuel-bounded worker for `swAttempts` (`max_retries + 1 - retries` steps
always suffice, since `retries` grows by one per missed attempt; the fuel-0
case is unreachable from `swAttempts` and coincides with the loop body's
outcome there). -/
def swAttemptsGo (ackArrives : Nat → Bool) (max_retries : Nat) :
    Nat → Nat → Nat → Bool × Nat
  | 0, t, _ => (ackArrives t, t + 1)
  | fuel + 1, t, retries =>
    if ackArrives t then (true, t + 1)
    else if retries ≥ max_retries then (false, t + 1)
    else swAttemptsGo ackArrives max_retries fuel (t + 1) (retries + 1)

/-- The inner retransmission loop of `StopAndWaitProtocol.send_file` for one
chunk, abstracted over an oracle: `ackArrives t` tells whether an ACK with
`ack_number == current_seq` was received during attempt `t`'s timeout window.
On a missed ACK, `handle_timeout` retransmits while `retries < max_retries`
and gives up (send_file returns False) once `retries >= max_retries`. -/
def swAttempts (ackArrives : Nat → Bool) (max_retries t retries : Nat) :
    Bool × Nat :=
  swAttemptsGo ackArrives max_retries (max_retries + 1 - retries) t retries

/-- `StopAndWaitProtocol.send_file` over the chunks of the source file
(each ≤ 1024 bytes), from attempt counter `t`.  Sequence-number bookkeeping
(`current_seq` flipping) does not influence the returned status and is
elided; the chunk contents never influence control flow. -/
def swSendLoop (ackArrives : Nat → Bool) (max_retries : Nat) :
    List (List Nat) → Nat → Bool
  | [], _ => true
  | _ :: rest, t =>
    let r := swAttempts ackArrives max_retries t 0
    if r.1 then swSendLoop ackArrives max_retries rest r.2
    else false

/-- `StopAndWaitProtocol.send_file file address` with the socket abstracted
into the ACK oracle. -/
def swSendFile (ackArrives : Nat → Bool) (max_retries : Nat)
    (chunks : List (List Nat)) : Bool :=
  swSendLoop ackArrives max_retries chunks 0

/-! ## Association-list maps for Python dicts -/

def alookup {κ α : Type} [DecidableEq κ] : List (κ × α) → κ → Option α
  | [], _ => none
  | (k, v) :: rest, key => if k = key then some v else alookup rest key

def aerase {κ α : Type} [DecidableEq κ] : List (κ × α) → κ → List (κ × α)
  | [], _ => []
  | (k, v) :: rest, key =>
    if k = key then aerase rest key else (k, v) :: aerase rest key

/-- `d[k] = v` (insert or overwrite). -/
def aset {κ α : Type} [DecidableEq κ] (l : List (κ × α)) (k : κ) (v : α) :
    List (κ × α) :=
  aerase l k ++ [(k, v)]

/-- `min(d.keys())` over a nonempty dict. -/
def aminKey {α : Type} : List (Nat × α) → Option Nat
  | [] => none
  | (k, _) :: rest =>
    match aminKey rest with
    | none => some k
    | some m => some (min k m)

/-! ## Selective Repeat engine (src/src/lib/protocols/selective_repeat.py)

Constructor defaults: `timeout=5, max_retries=3, window_size=8`.  Wall-clock
comparisons (`time.time() - entry['timestamp'] > self.timeout`) become an
`elapsed` oracle; `socket.sendto` retransmissions become the returned list of
retransmitted sequence numbers. -/

structure SRSendEntry where
  packet : RDTPacket
  retries : Nat
deriving DecidableEq, Repr

structure SRSender where
  current_seq : Nat
  send_window : List (Nat × SRSendEntry)
  ack_received : List (Nat × Bool)
  duplicate_ack_count : List (Nat × Nat)
  window_size : Nat
  max_retries : Nat
deriving DecidableEq, Repr

/-- A fresh sender (`__init__` with empty dicts). -/
def srInit (current_seq window_size max_retries : Nat) : SRSender :=
  { current_seq := current_seq, send_window := [], ack_received := [],
    duplicate_ack_count := [], window_size := window_size,
    max_retries := max_retries }

/-- `SelectiveRepeatProtocol.handle_timeout` (lines 88-107): on an exhausted
slot (`retries >= max_retries`) delete it from `send_window` and
`ack_received` and report `False`; otherwise retransmit the stored packet
(the returned event list), bump `retries`, report `True`. -/
def srHandleTimeout (st : SRSender) (seq_num : Nat) :
    Bool × SRSender × List Nat :=
  match alookup st.send_window seq_num with
  | none => (false, st, [])
  | some entry =>
    if entry.retries ≥ st.max_retries then
      (false,
       { st with send_window := aerase st.send_window seq_num,
                 ack_received := aerase st.ack_received seq_num }, [])
    else
      let bumped : SRSendEntry := { entry with retries := entry.retries + 1 }
      (true, { st with send_window := aset st.send_window seq_num bumped },
       [seq_num])

/-- `SelectiveRepeatProtocol._fast_retransmit` (lines 218-221, the second
definition, which is the one Python keeps): delegate to `handle_timeout`. -/
def srFastRetransmit (st : SRSender) (seq_num : Nat) : SRSender × List Nat :=
  if (alookup st.send_window seq_num).isSome then
    let r := srHandleTimeout st seq_num
    (r.2.1, r.2.2)
  else (st, [])

/-- Fuel-bounded worker for `srSlideLoop` (`ar.length` steps always suffice:
every iteration erases a key present in `ar`; with the fuel spent `ar` is
empty, so the loop condition fails either way). -/
def srSlideLoopGo : Nat → Nat → List (Nat × SRSendEntry) →
    List (Nat × Bool) → List (Nat × Nat) →
    List (Nat × SRSendEntry) × List (Nat × Bool) × List (Nat × Nat)
  | 0, _, w, ar, dup => (w, ar, dup)
  | fuel + 1, min_seq, w, ar, dup =>
    match alookup ar min_seq with
    | some true =>
        srSlideLoopGo fuel ((min_seq + 1) % 65536) (aerase w min_seq)
          (aerase ar min_seq) (aerase dup min_seq)
    | _ => (w, ar, dup)

/-- The `while` loop of `slide_send_window`: starting from the minimum key
of `send_window`, delete contiguously acknowledged slots from all three
dicts. -/
def srSlideLoop (min_seq : Nat) (w : List (Nat × SRSendEntry))
    (ar : List (Nat × Bool)) (dup : List (Nat × Nat)) :
    List (Nat × SRSendEntry) × List (Nat × Bool) × List (Nat × Nat) :=
  srSlideLoopGo ar.length min_seq w ar dup

/-- `SelectiveRepeatProtocol.slide_send_window` (lines 172-183). -/
def srSlideSendWindow (st : SRSender) : SRSender :=
  let min_seq := (aminKey st.send_window).getD 0
  let r := srSlideLoop min_seq st.send_window st.ack_received
    st.duplicate_ack_count
  { st with send_window := r.1, ack_received := r.2.1,
            duplicate_ack_count := r.2.2 }

/-- The common body of `_handle_ack` (lines 191-204) and `on_ack`
(lines 251-265), keyed by `ack_num`:  unknown slots are ignored; an already
acknowledged slot bumps its duplicate counter and triggers fast retransmit
at 3; a fresh acknowledgement marks the slot and slides the window. -/
def srHandleAckNum (st : SRSender) (ack_num : Nat) : SRSender × List Nat :=
  match alookup st.ack_received ack_num with
  | none => (st, [])
  | some true =>
    let newCount := (alookup st.duplicate_ack_count ack_num).getD 0 + 1
    let newDup := aset st.duplicate_ack_count ack_num newCount
    let st1 := { st with duplicate_ack_count := newDup }
    if newCount ≥ 3 then srFastRetransmit st1 ack_num else (st1, [])
  | some false =>
    let st1 :=
      { st with ack_received := aset st.ack_received ack_num true,
                duplicate_ack_count := aset st.duplicate_ack_count ack_num 0 }
    (srSlideSendWindow st1, [])

/-- `SelectiveRepeatProtocol.on_ack` (lines 251-265): requires the ACK flag
and a known slot, returning whether the ACK was accepted, the new sender
state, and the sequence numbers retransmitted by fast retransmit. -/
def srOnAck (st : SRSender) (packet : RDTPacket) : Bool × SRSender × List Nat :=
  if ¬ hasFlag packet flagACK then (false, st, [])
  else
    match alookup st.ack_received packet.header.ack_number with
    | none => (false, st, [])
    | some _ => (true, srHandleAckNum st packet.header.ack_number)

/-- The receive-window membership test `(seq - base) % 65536 < window_size`
(Python's floored modulus on a possibly negative difference). -/
def srInWindow (seq base window_size : Nat) : Bool :=
  decide (Int.fmod ((seq : Int) - (base : Int)) 65536 < (window_size : Int))

/-- Fuel-bounded worker for `srDrain` (`buf.length` steps always suffice:
every delivered packet is erased from the buffer, and once the fuel is spent
the buffer is empty, so the loop condition fails either way). -/
def srDrainGo : Nat → Nat → List (Nat × RDTPacket) →
    List Nat × Nat × List (Nat × RDTPacket)
  | 0, expected, buf => ([], expected, buf)
  | fuel + 1, expected, buf =>
    match alookup buf expected with
    | some p =>
      let r := srDrainGo fuel ((expected + 1) % 65536) (aerase buf expected)
      (p.payload ++ r.1, r.2)
    | none => ([], expected, buf)

/-- The delivery loop of `on_data`: pop and concatenate buffered packets at
consecutive expected sequence numbers. -/
def srDrain (expected : Nat) (buf : List (Nat × RDTPacket)) :
    List Nat × Nat × List (Nat × RDTPacket) :=
  srDrainGo buf.length expected buf

/-- `SelectiveRepeatProtocol.on_data` (lines 238-249): buffer the frame when
`(seq - base) % 65536 < window_size`, always acknowledge `seq`, and deliver
the contiguous run from `expected_seq`.  Returns the source's
`(ack_num, data_to_write, expected_seq)` triple and the new receive
buffer. -/
def srOnData (window_size expected_seq : Nat) (buf : List (Nat × RDTPacket))
    (packet : RDTPacket) : (Nat × List Nat × Nat) × List (Nat × RDTPacket) :=
  let seq := packet.header.sequence_number
  let buf1 := if srInWindow seq expected_seq window_size
              then aset buf seq packet else buf
  let r := srDrain expected_seq buf1
  ((seq, r.1, r.2.1), r.2.2)

/-- `SelectiveRepeatProtocol.send_packet` (lines 22-44): refuse when the
window is full; otherwise stamp `current_seq`, transmit, record the entry
with `retries = 0`, and advance `current_seq` modulo 65536. -/
def srSendPacket (st : SRSender) (packet : RDTPacket) : Bool × SRSender :=
  if st.send_window.length ≥ st.window_size then (false, st)
  else
    let seq_num := st.current_seq
    let pkt :=
      { packet with header :=
          { packet.header with sequence_number := seq_num, ack_number := 0 } }
    (true,
     { st with
       send_window := aset st.send_window seq_num { packet := pkt, retries := 0 },
       ack_received := aset st.ack_received seq_num false,
       duplicate_ack_count := aset st.duplicate_ack_count seq_num 0,
       current_seq := (seq_num + 1) % 65536 })

/-- `_check_timeouts` (lines 223-236, the second definition, which is the
one Python keeps): snapshot the window; for each slot the `elapsed` oracle
decides `now - timestamp > timeout`; run `handle_timeout`, collecting slots
it reports failed, and finally delete those from `send_window` and
`ack_received` (idempotent, since `handle_timeout` already deleted them). -/
def srCheckTimeouts (elapsed : Nat → Bool) (st : SRSender) :
    SRSender × List Nat :=
  let step := fun (acc : SRSender × List Nat × List Nat) (p : Nat × SRSendEntry) =>
    if elapsed p.1 then
      let r := srHandleTimeout acc.1 p.1
      (r.2.1, acc.2.1 ++ r.2.2, if r.1 then acc.2.2 else acc.2.2 ++ [p.1])
    else acc
  let folded := st.send_window.foldl step (st, [], [])
  (folded.2.2.foldl
     (fun s k =>
       { s with send_window := aerase s.send_window k,
                ack_received := aerase s.ack_received k }) folded.1,
   folded.2.1)

/-- Fuel-bounded worker for `srFillWindow` (`chunks.length - pos` steps
always suffice, since `pos` advances by one per transmitted chunk). -/
def srFillWindowGo : Nat → List (List Nat) → Nat → SRSender → Nat × SRSender
  | 0, _, pos, st => (pos, st)
  | fuel + 1, chunks, pos, st =>
    if pos ≥ chunks.length then (pos, st)
    else if st.send_window.length ≥ st.window_size then (pos, st)
    else
      let r := srSendPacket st (libCreateDataPacket 0 (chunks.getD pos []))
      if r.1 then srFillWindowGo fuel chunks (pos + 1) r.2
      else (pos, r.2)

/-- The window-filling loop of `send_file` (lines 124-131): while data
remain and the window has room, `create_data_packet(0, chunk)` and
`send_packet` it.  Returns the new file position and sender state. -/
def srFillWindow (chunks : List (List Nat)) (pos : Nat) (st : SRSender) :
    Nat × SRSender :=
  srFillWindowGo (chunks.length - pos) chunks pos st

/-- `SelectiveRepeatProtocol.send_file` (lines 116-148), fuel-bounded.  The
file is the list of its ≤1024-byte chunks; `incoming iter` is the datagram
(if any) the 0.01 s polling read returns on iteration `iter`; `elapsed` is
the per-iteration timeout oracle.  The loop runs while data remain or the
send window is nonempty and then returns `True`; `none` means the fuel ran
out.  Result: the status and the retransmitted sequence numbers. -/
def srSendFileLoop : Nat → (Nat → Option RDTPacket) → (Nat → Nat → Bool) →
    List (List Nat) → Nat → SRSender → Nat → Option (Bool × List Nat)
  | 0, _, _, _, _, _, _ => none
  | fuel + 1, incoming, elapsed, chunks, pos, st, iter =>
    if pos ≥ chunks.length ∧ st.send_window = [] then some (true, [])
    else
      let f := srFillWindow chunks pos st
      let afterRecv : SRSender × List Nat :=
        match incoming iter with
        | none => (f.2, [])
        | some pkt =>
            if hasFlag pkt flagACK then srHandleAckNum f.2 pkt.header.ack_number
            else (f.2, [])
      let c := srCheckTimeouts (elapsed iter) afterRecv.1
      match srSendFileLoop fuel incoming elapsed chunks f.1 c.1 (iter + 1) with
      | none => none
      | some (b, evs) => some (b, afterRecv.2 ++ c.2 ++ evs)

/-- `send_file` from the start of the file. -/
def srSendFile (fuel : Nat) (incoming : Nat → Option RDTPacket)
    (elapsed : Nat → Nat → Bool) (chunks : List (List Nat)) (st : SRSender) :
    Option (Bool × List Nat) :=
  srSendFileLoop fuel incoming elapsed chunks 0 st 0

/-! ## Server (src/src/lib/server/main.py)

The file system is an association list from paths to byte contents; peers
are abstract `Nat` addresses.  The per-session mutex and the per-filename
reader-writer lock serialize the modelled transitions, so they appear here
as the sequential order of operations. -/

/-- The per-client dict created by `_get_client_context`. -/
structure ClientCtx where
  expected_seq : Nat
  current_operation : Option String
  current_filename : Option String
  file_handle : Bool
  connected : Bool
  temp_file_path : Option String
deriving DecidableEq, Repr

/-- `_get_client_context`'s fresh state for an unknown peer. -/
def freshClientCtx : ClientCtx :=
  { expected_seq := 0, current_operation := none, current_filename := none,
    file_handle := false, connected := false, temp_file_path := none }

/-- `RDTProtocol._finalize_upload` (lines 276-304): require the temp file to
exist, close the handle, take the filename's writer lock, remove any
existing final file, and rename temp onto `storage_dir/filename`. -/
def finalizeUpload (storage_dir : String) (fs : List (String × List Nat))
    (ctx : ClientCtx) : List (String × List Nat) :=
  match ctx.current_filename, ctx.temp_file_path with
  | some filename, some temp_path =>
    match alookup fs temp_path with
    | none => fs
    | some contents =>
      let final_path := storage_dir ++ "/" ++ filename
      aset (aerase (aerase fs final_path) temp_path) final_path contents
  | _, _ => fs
  -- `not temp_path` (None) or a missing temp file: log and return unchanged

/-- `RDTProtocol.handle_fin` (lines 261-274): finalize when an UPLOAD is in
progress with an open temp file and a filename, then build
`create_end_packet(0, seq_num=fin.sequence_number + 1)` with the ACK flag
and send it.  `sendto(fin_ack.to_bytes(), ...)` raises `OverflowError` when
`sequence_number + 1` does not fit four bytes, so no reply leaves the
server in that case (second component `none`). -/
def serverHandleFin (storage_dir : String) (fs : List (String × List Nat))
    (ctx : ClientCtx) (fin : RDTPacket) :
    List (String × List Nat) × Option RDTPacket :=
  let fs1 :=
    if ctx.current_operation == some "UPLOAD" && ctx.file_handle &&
        ctx.current_filename.isSome
    then finalizeUpload storage_dir fs ctx else fs
  let fin_ack :=
    setFlag (libCreateEndPacket 0 (fin.header.sequence_number + 1)) flagACK
  match libToBytes fin_ack with
  | some _ => (fs1, some fin_ack)
  | none => (fs1, none)

/-- The FIN branch of `_process_packet_for_client` (lines 115-119) together
with `handle_packet`'s exception handler: fetch-or-create the session, run
`handle_fin`, and delete the session afterwards — unless `handle_fin`
raised while sending, in which case the deletion is skipped. -/
def serverProcessFin (storage_dir : String) (fs : List (String × List Nat))
    (sessions : List (Nat × ClientCtx)) (address : Nat) (fin : RDTPacket) :
    List (String × List Nat) × List (Nat × ClientCtx) × Option RDTPacket :=
  let sessions1 :=
    match alookup sessions address with
    | some _ => sessions
    | none => aset sessions address freshClientCtx
  let ctx := (alookup sessions1 address).getD freshClientCtx
  let r := serverHandleFin storage_dir fs ctx fin
  match r.2 with
  | some reply => (r.1, aerase sessions1 address, some reply)
  | none => (r.1, sessions1, none)

/-- `RDTProtocol.handle_data` (lines 180-204) for an established
selective-repeat session (operation already negotiated, `connected` true):
drop `seq < 2`, otherwise run the engine's `on_data` and unconditionally
send `create_ack_packet(ack_num=ack_num)`.  Returns the emitted ACK packet,
the bytes written to the upload temp file, and the new
`expected_seq`/receive buffer.  `none` models `return` without any
response. -/
def serverHandleDataSR (window_size expected_seq : Nat)
    (buf : List (Nat × RDTPacket)) (packet : RDTPacket) :
    Option (RDTPacket × List Nat × Nat × List (Nat × RDTPacket)) :=
  if packet.header.sequence_number < 2 then none
  else
    let r := srOnData window_size expected_seq buf packet
    some (libCreateAckPacket r.1.1, r.1.2.1, r.1.2.2, r.2)

/-! ## Client download (src/src/lib/client/main.py) -/

/-- The success finalization of `download_file` (lines 174-189): the file
is downloaded into a temp file in the current directory; on success any
existing `filename` is removed and the temp file is moved onto `filename`
(a path relative to the CWD). -/
def downloadFileFinalize (filename : String) (fs : List (String × List Nat))
    (temp_file_path : String) : List (String × List Nat) :=
  match alookup fs temp_file_path with
  | none => fs
  | some contents =>
    aset (aerase (aerase fs filename) temp_file_path) filename contents

/-- `download_main` (lines 346-394): it parses `-d`/`--dst` into
`dest_path` (line 359) but then calls
`download_file(client_socket, addr, filename, protocol, verbose)` with
`filename = args.name` only — `dest_path` is never passed on, so the
download always finalizes at the remote name in the CWD. -/
def downloadMainFinalize (dest_path : Option String) (name : String)
    (fs : List (String × List Nat)) (temp_file_path : String) :
    List (String × List Nat) :=
  let _ := dest_path
  downloadFileFinalize name fs temp_file_path

/-! # Lemmas -/

set_option maxRecDepth 40000
set_option maxHeartbeats 2000000

/-! ## Byte serialization -/

theorem toBytesBE_length (n v : Nat) : (toBytesBE n v).length = n := by
  induction n generalizing v with
  | zero => rfl
  | succ n ih => simp [toBytesBE, ih]

theorem fromBytesBE_snoc (xs : List Nat) (b : Nat) :
    fromBytesBE (xs ++ [b]) = 256 * fromBytesBE xs + b := by
  simp [fromBytesBE, List.foldl_append]

theorem fromBytesBE_toBytesBE {n v : Nat} (h : v < 2 ^ (8 * n)) :
    fromBytesBE (toBytesBE n v) = v := by
  induction n generalizing v with
  | zero =>
    simp only [Nat.mul_zero, pow_zero, Nat.lt_one_iff] at h
    simp [toBytesBE, fromBytesBE, h]
  | succ n ih =>
    have hdiv : v / 256 < 2 ^ (8 * n) := by
      rw [Nat.div_lt_iff_lt_mul (by norm_num)]
      calc v < 2 ^ (8 * (n + 1)) := h
        _ = 2 ^ (8 * n) * 256 := by rw [Nat.mul_succ, pow_add]; norm_num
    simp [toBytesBE, fromBytesBE_snoc, ih hdiv, Nat.div_add_mod, Nat.mul_comm]

/-! ## CRC-32 algebra -/

theorem xor_mix (a b c d : Nat) :
    (a ^^^ b) ^^^ (c ^^^ d) = (a ^^^ c) ^^^ (b ^^^ d) := by
  apply Nat.eq_of_testBit_eq
  intro i
  simp only [Nat.testBit_xor]
  generalize a.testBit i = w
  generalize b.testBit i = x
  generalize c.testBit i = y
  generalize d.testBit i = z
  revert w x y z
  decide

theorem xor_right_swap (a b c : Nat) : (a ^^^ b) ^^^ c = (a ^^^ c) ^^^ b := by
  rw [Nat.xor_assoc, Nat.xor_assoc, Nat.xor_comm b c]

theorem mod_two_xor (x y : Nat) : (x ^^^ y) % 2 = (x % 2) ^^^ (y % 2) := by
  rw [← Nat.and_one_is_mod, ← Nat.and_one_is_mod, ← Nat.and_one_is_mod,
    Nat.and_xor_distrib_right]

theorem shiftRight_one_xor (x y : Nat) :
    (x ^^^ y) >>> 1 = (x >>> 1) ^^^ (y >>> 1) := by
  apply Nat.eq_of_testBit_eq
  intro i
  simp [Nat.testBit_shiftRight, Nat.testBit_xor]

theorem crcShift_xor (x y : Nat) :
    crcShift (x ^^^ y) = crcShift x ^^^ crcShift y := by
  unfold crcShift
  rw [xor_mix, shiftRight_one_xor]
  congr 1
  rcases Nat.mod_two_eq_zero_or_one x with hx | hx <;>
    rcases Nat.mod_two_eq_zero_or_one y with hy | hy <;>
      rw [mod_two_xor, hx, hy] <;> simp [Nat.xor_self]

theorem crcIter_add (m n x : Nat) :
    crcIter (m + n) x = crcIter m (crcIter n x) := by
  induction n generalizing x with
  | zero => rfl
  | succ n ih => rw [crcIter, Nat.add_succ, crcIter, ih]

theorem crcIter_xor (n x y : Nat) :
    crcIter n (x ^^^ y) = crcIter n x ^^^ crcIter n y := by
  induction n generalizing x y with
  | zero => rfl
  | succ n ih => rw [crcIter, crcIter, crcIter, crcShift_xor, ih]

theorem crcShift_lt {x : Nat} (h : x < 2 ^ 32) : crcShift x < 2 ^ 32 := by
  unfold crcShift
  apply Nat.xor_lt_two_pow
  · exact Nat.lt_of_le_of_lt (by rw [Nat.shiftRight_eq_div_pow]; exact Nat.div_le_self x 2) h
  · split <;> decide

theorem crcIter_lt {n x : Nat} (h : x < 2 ^ 32) : crcIter n x < 2 ^ 32 := by
  induction n generalizing x with
  | zero => exact h
  | succ n ih => exact ih (crcShift_lt h)

theorem crcShift_eq_zero {x : Nat} (h32 : x < 2 ^ 32) (h : crcShift x = 0) :
    x = 0 := by
  unfold crcShift at h
  rcases Nat.mod_two_eq_zero_or_one x with hx | hx
  · rw [hx, if_neg (by decide : ¬((0 : Nat) = 1)), Nat.xor_zero] at h
    rw [Nat.shiftRight_eq_div_pow, pow_one] at h
    have hlt : x < 2 := (Nat.div_eq_zero_iff (by norm_num)).mp h
    omega
  · rw [hx] at h
    simp only [if_pos rfl] at h
    have heq : x >>> 1 = crcPoly := Nat.xor_eq_zero.mp h
    have hbit : (x >>> 1).testBit 31 = false := by
      rw [Nat.testBit_shiftRight]
      exact Nat.testBit_eq_false_of_lt h32
    rw [heq] at hbit
    have : crcPoly.testBit 31 = true := by decide
    rw [this] at hbit
    cases hbit

theorem crcIter_eq_zero {n x : Nat} (h32 : x < 2 ^ 32)
    (h : crcIter n x = 0) : x = 0 := by
  induction n generalizing x with
  | zero => exact h
  | succ n ih => exact crcShift_eq_zero h32 (ih (crcShift_lt h32) h)

theorem crcReg_xor (bs : List Nat) (c d : Nat) :
    crcReg bs (c ^^^ d) = crcReg bs c ^^^ crcIter (8 * bs.length) d := by
  induction bs generalizing c d with
  | nil => rfl
  | cons b bs ih =>
    show crcReg bs (crcUpdate (c ^^^ d) b) = _
    have hupd : crcUpdate (c ^^^ d) b = crcUpdate c b ^^^ crcIter 8 d := by
      unfold crcUpdate
      rw [xor_right_swap, crcIter_xor]
    rw [hupd, ih]
    show _ = crcReg bs (crcUpdate c b) ^^^ crcIter (8 * (bs.length + 1)) d
    rw [Nat.mul_succ, crcIter_add]

theorem crcReg_set (m : List Nat) (j k c : Nat) (hj : j < m.length) :
    crcReg (m.set j (m.getD j 0 ^^^ 2 ^ k)) c =
      crcReg m c ^^^ crcIter (8 * (m.length - j)) (2 ^ k) := by
  induction m generalizing j c with
  | nil => simp at hj
  | cons b bs ih =>
    cases j with
    | zero =>
      simp only [List.getD_cons_zero, List.set_cons_zero]
      show crcReg bs (crcUpdate c (b ^^^ 2 ^ k)) = _
      have hupd : crcUpdate c (b ^^^ 2 ^ k) = crcUpdate c b ^^^ crcIter 8 (2 ^ k) := by
        unfold crcUpdate
        rw [← Nat.xor_assoc, crcIter_xor]
      rw [hupd, crcReg_xor]
      show _ = crcReg bs (crcUpdate c b) ^^^ crcIter (8 * (bs.length + 1 - 0)) (2 ^ k)
      rw [Nat.sub_zero, Nat.mul_succ, crcIter_add]
    | succ j =>
      simp only [List.getD_cons_succ, List.set_cons_succ]
      show crcReg (bs.set j (bs.getD j 0 ^^^ 2 ^ k)) (crcUpdate c b) = _
      have hjs : j < bs.length := by simpa using hj
      rw [ih j (crcUpdate c b) hjs]
      have hlen : (b :: bs).length - (j + 1) = bs.length - j := by
        simp only [List.length_cons]
        omega
      rw [hlen]
      rfl

theorem crc32_set (m : List Nat) (j k : Nat) (hj : j < m.length) :
    crc32 (m.set j (m.getD j 0 ^^^ 2 ^ k)) =
      crc32 m ^^^ crcIter (8 * (m.length - j)) (2 ^ k) := by
  unfold crc32
  rw [crcReg_set m j k _ hj, xor_right_swap]

theorem crcIter_two_pow_ne_zero {n k : Nat} (hk : k < 8) :
    crcIter n (2 ^ k) ≠ 0 := by
  intro h
  have hlt : (2 : Nat) ^ k < 2 ^ 32 := by
    calc (2 : Nat) ^ k ≤ 2 ^ 7 := Nat.pow_le_pow_right (by norm_num) (by omega)
      _ < 2 ^ 32 := by norm_num
  have := crcIter_eq_zero hlt h
  exact absurd this (Nat.pos_iff_ne_zero.mp (Nat.two_pow_pos k))

theorem land_mask_of_lt {x : Nat} (h : x < 2 ^ 32) : x &&& 0xFFFFFFFF = x := by
  apply Nat.eq_of_testBit_eq
  intro i
  rw [Nat.testBit_land]
  by_cases hi : i < 32
  · have : (0xFFFFFFFF : Nat).testBit i = true := by
      have : (0xFFFFFFFF : Nat) = 2 ^ 32 - 1 := by norm_num
      rw [this, Nat.testBit_two_pow_sub_one]
      simpa using hi
    simp [this]
  · have hx : x.testBit i = false :=
      Nat.testBit_eq_false_of_lt
        (Nat.lt_of_lt_of_le h (Nat.pow_le_pow_right (by norm_num) (by omega)))
    simp [hx]

theorem crc32_set_mask_ne (m : List Nat) (j k : Nat) (hj : j < m.length)
    (hk : k < 8) :
    crc32 (m.set j (m.getD j 0 ^^^ 2 ^ k)) &&& 0xFFFFFFFF ≠
      crc32 m &&& 0xFFFFFFFF := by
  rw [crc32_set m j k hj, Nat.and_xor_distrib_right]
  have hlt : crcIter (8 * (m.length - j)) (2 ^ k) < 2 ^ 32 := by
    apply crcIter_lt
    calc (2 : Nat) ^ k ≤ 2 ^ 7 := Nat.pow_le_pow_right (by norm_num) (by omega)
      _ < 2 ^ 32 := by norm_num
  rw [land_mask_of_lt hlt]
  intro h
  have h2 : (crc32 m &&& 0xFFFFFFFF) ^^^
      ((crc32 m &&& 0xFFFFFFFF) ^^^ crcIter (8 * (m.length - j)) (2 ^ k)) =
      (crc32 m &&& 0xFFFFFFFF) ^^^ (crc32 m &&& 0xFFFFFFFF) := by rw [h]
  rw [Nat.xor_cancel_left, Nat.xor_self] at h2
  exact crcIter_two_pow_ne_zero hk h2

/-! ## MD5 digest shape -/

theorem toBytesLE_length (n v : Nat) : (toBytesLE n v).length = n := by
  induction n generalizing v with
  | zero => rfl
  | succ n ih => simp [toBytesLE, ih]

theorem md5Digest_length (data : List Nat) : (md5Digest data).length = 16 := by
  unfold md5Digest
  rcases (md5Chunks (md5Pad data)).foldl md5Chunk
    (0x67452301, 0xefcdab89, 0x98badcfe, 0x10325476) with ⟨a, b, c, d⟩
  simp [toBytesLE_length]

theorem length_flatMap_pair {α : Type} (l : List α) (f g : α → Nat) :
    (l.flatMap fun b => [f b, g b]).length = 2 * l.length := by
  induction l with
  | nil => rfl
  | cons x xs ih => simp [ih]; omega

theorem md5Hex_length (data : List Nat) : (md5Hex data).length = 32 := by
  unfold md5Hex
  rw [length_flatMap_pair, md5Digest_length]

/-! ## Parsing the lib codec's frames -/

theorem libToBytes_eq (p : RDTPacket)
    (hs : p.header.sequence_number < 2 ^ 32) (ha : p.header.ack_number < 2 ^ 32)
    (hf : p.header.flags < 2 ^ 16) (hl : p.payload.length < 2 ^ 16) :
    libToBytes p = some
      (toBytesBE 4 p.header.sequence_number ++ toBytesBE 4 p.header.ack_number ++
        toBytesBE 2 p.header.flags ++
        toBytesBE 4 (crc32 (toBytesBE 4 p.header.sequence_number ++
          toBytesBE 4 p.header.ack_number ++ toBytesBE 2 p.header.flags ++
          p.payload) &&& 0xFFFFFFFF) ++
        toBytesBE 2 p.payload.length ++ p.payload) := by
  have hcs : crc32 (toBytesBE 4 p.header.sequence_number ++
      (toBytesBE 4 p.header.ack_number ++ (toBytesBE 2 p.header.flags ++
      p.payload))) &&& 0xFFFFFFFF < 4294967296 :=
    Nat.lt_of_le_of_lt Nat.and_le_right (by norm_num)
  have hs4 : p.header.sequence_number < 4294967296 := by
    calc p.header.sequence_number < 2 ^ 32 := hs
      _ = 4294967296 := by norm_num
  have ha4 : p.header.ack_number < 4294967296 := by
    calc p.header.ack_number < 2 ^ 32 := ha
      _ = 4294967296 := by norm_num
  have hf2 : p.header.flags < 65536 := by
    calc p.header.flags < 2 ^ 16 := hf
      _ = 65536 := by norm_num
  have hl2 : p.payload.length < 65536 := by
    calc p.payload.length < 2 ^ 16 := hl
      _ = 65536 := by norm_num
  simp only [libToBytes, libCalculateChecksum, pyToBytesBE, bind, Option.bind]
  norm_num [hs4, ha4, hf2, hl2]
  simp [hcs]

theorem libFromBytes_frame (seq ack fl cs : Nat) (pl : List Nat)
    (hs : seq < 2 ^ 32) (ha : ack < 2 ^ 32) (hf : fl < 2 ^ 16)
    (hcs : cs < 2 ^ 32) (hl : pl.length < 2 ^ 16) :
    libFromBytes (toBytesBE 4 seq ++ toBytesBE 4 ack ++ toBytesBE 2 fl ++
        toBytesBE 4 cs ++ toBytesBE 2 pl.length ++ pl) =
      if crc32 (toBytesBE 4 seq ++ toBytesBE 4 ack ++ toBytesBE 2 fl ++ pl) &&&
          0xFFFFFFFF ≠ cs then none
      else some { header := { sequence_number := seq, ack_number := ack,
                              flags := fl, data_length := 0 },
                  payload := pl } := by
  have ls : (toBytesBE 4 seq).length = 4 := toBytesBE_length 4 seq
  have la : (toBytesBE 4 ack).length = 4 := toBytesBE_length 4 ack
  have lf : (toBytesBE 2 fl).length = 2 := toBytesBE_length 2 fl
  have lc : (toBytesBE 4 cs).length = 4 := toBytesBE_length 4 cs
  have ll : (toBytesBE 2 pl.length).length = 2 := toBytesBE_length 2 pl.length
  set F := toBytesBE 4 seq ++ toBytesBE 4 ack ++ toBytesBE 2 fl ++
    toBytesBE 4 cs ++ toBytesBE 2 pl.length ++ pl with hF
  have hFlen : F.length = 16 + pl.length := by
    simp [hF, ls, la, lf, lc, ll]
    omega
  have d4 : F.drop 4 = toBytesBE 4 ack ++ toBytesBE 2 fl ++ toBytesBE 4 cs ++
      toBytesBE 2 pl.length ++ pl := List.drop_left' ls
  have d8 : F.drop 8 = toBytesBE 2 fl ++ toBytesBE 4 cs ++
      toBytesBE 2 pl.length ++ pl := by
    rw [← List.drop_drop 4 4 F, d4]
    exact List.drop_left' la
  have d10 : F.drop 10 = toBytesBE 4 cs ++ toBytesBE 2 pl.length ++ pl := by
    rw [← List.drop_drop 2 8 F, d8]
    exact List.drop_left' lf
  have d14 : F.drop 14 = toBytesBE 2 pl.length ++ pl := by
    rw [← List.drop_drop 4 10 F, d10]
    exact List.drop_left' lc
  have d16 : F.drop 16 = pl := by
    rw [← List.drop_drop 2 14 F, d14]
    exact List.drop_left' ll
  have sl0 : pySlice F 0 4 = toBytesBE 4 seq := by
    simp only [pySlice, List.drop_zero, Nat.sub_zero]
    exact List.take_left' ls
  have sl4 : pySlice F 4 8 = toBytesBE 4 ack := by
    simp only [pySlice, d4]
    exact List.take_left' la
  have sl8 : pySlice F 8 10 = toBytesBE 2 fl := by
    simp only [pySlice, d8]
    exact List.take_left' lf
  have sl10 : pySlice F 10 14 = toBytesBE 4 cs := by
    simp only [pySlice, d10]
    exact List.take_left' lc
  have sl14 : pySlice F 14 16 = toBytesBE 2 pl.length := by
    simp only [pySlice, d14]
    exact List.take_left' ll
  have sl16 : pySlice F 16 (16 + pl.length) = pl := by
    simp only [pySlice, d16, Nat.add_sub_cancel_left]
    exact List.take_length pl
  have hp32 : (2 : Nat) ^ (8 * 4) = 2 ^ 32 := by norm_num
  have hp16 : (2 : Nat) ^ (8 * 2) = 2 ^ 16 := by norm_num
  have hs' : seq < 2 ^ (8 * 4) := by rw [hp32]; exact hs
  have ha' : ack < 2 ^ (8 * 4) := by rw [hp32]; exact ha
  have hf' : fl < 2 ^ (8 * 2) := by rw [hp16]; exact hf
  have hcs' : cs < 2 ^ (8 * 4) := by rw [hp32]; exact hcs
  have hl' : pl.length < 2 ^ (8 * 2) := by rw [hp16]; exact hl
  have hcs2 : crc32 (toBytesBE 4 seq ++ (toBytesBE 4 ack ++ (toBytesBE 2 fl ++
      pl))) &&& 0xFFFFFFFF < 4294967296 :=
    Nat.lt_of_le_of_lt Nat.and_le_right (by norm_num)
  have hs4 : seq < 4294967296 := by
    calc seq < 2 ^ 32 := hs
      _ = 4294967296 := by norm_num
  have ha4 : ack < 4294967296 := by
    calc ack < 2 ^ 32 := ha
      _ = 4294967296 := by norm_num
  have hf2 : fl < 65536 := by
    calc fl < 2 ^ 16 := hf
      _ = 65536 := by norm_num
  simp only [libFromBytes, sl0, sl4, sl8, sl10, sl14, sl16, hFlen,
    fromBytesBE_toBytesBE hs', fromBytesBE_toBytesBE ha',
    fromBytesBE_toBytesBE hf', fromBytesBE_toBytesBE hcs',
    fromBytesBE_toBytesBE hl', libCalculateChecksum, pyToBytesBE]
  norm_num [hs4, ha4, hf2, hcs2]

/-! ## Parsing the helpers codec's frames -/

theorem helpersToBytes_eq (p : RDTPacket)
    (hs : p.header.sequence_number < 2 ^ 32) (ha : p.header.ack_number < 2 ^ 32)
    (hf : p.header.flags < 2 ^ 16) (hd : p.header.data_length < 2 ^ 16) :
    helpersToBytes p = some
      (toBytesBE 4 p.header.sequence_number ++ toBytesBE 4 p.header.ack_number ++
        toBytesBE 2 p.header.flags ++ toBytesBE 2 p.header.data_length ++
        p.payload ++ md5Hex p.payload) := by
  have hs4 : p.header.sequence_number < 4294967296 := by
    calc p.header.sequence_number < 2 ^ 32 := hs
      _ = 4294967296 := by norm_num
  have ha4 : p.header.ack_number < 4294967296 := by
    calc p.header.ack_number < 2 ^ 32 := ha
      _ = 4294967296 := by norm_num
  have hf2 : p.header.flags < 65536 := by
    calc p.header.flags < 2 ^ 16 := hf
      _ = 65536 := by norm_num
  have hd2 : p.header.data_length < 65536 := by
    calc p.header.data_length < 2 ^ 16 := hd
      _ = 65536 := by norm_num
  simp only [helpersToBytes, helpersHeaderToBytes, pyToBytesBE, bind,
    Option.bind]
  norm_num [hs4, ha4, hf2, hd2]

theorem helpersFromBytes_frame (seq ack fl : Nat) (pl : List Nat)
    (hs : seq < 2 ^ 32) (ha : ack < 2 ^ 32) (hf : fl < 2 ^ 16)
    (hl : pl.length < 2 ^ 16) :
    helpersFromBytes (toBytesBE 4 seq ++ toBytesBE 4 ack ++ toBytesBE 2 fl ++
        toBytesBE 2 pl.length ++ pl ++ md5Hex pl) =
      some ({ header := { sequence_number := seq, ack_number := ack,
                          flags := fl, data_length := pl.length },
              payload := pl }, md5Hex pl) := by
  have ls : (toBytesBE 4 seq).length = 4 := toBytesBE_length 4 seq
  have la : (toBytesBE 4 ack).length = 4 := toBytesBE_length 4 ack
  have lf : (toBytesBE 2 fl).length = 2 := toBytesBE_length 2 fl
  have ld : (toBytesBE 2 pl.length).length = 2 := toBytesBE_length 2 pl.length
  have lh : (md5Hex pl).length = 32 := md5Hex_length pl
  have hp32 : (2 : Nat) ^ (8 * 4) = 2 ^ 32 := by norm_num
  have hp16 : (2 : Nat) ^ (8 * 2) = 2 ^ 16 := by norm_num
  have hs' : seq < 2 ^ (8 * 4) := by rw [hp32]; exact hs
  have ha' : ack < 2 ^ (8 * 4) := by rw [hp32]; exact ha
  have hf' : fl < 2 ^ (8 * 2) := by rw [hp16]; exact hf
  have hl' : pl.length < 2 ^ (8 * 2) := by rw [hp16]; exact hl
  set G := toBytesBE 4 seq ++ toBytesBE 4 ack ++ toBytesBE 2 fl ++
    toBytesBE 2 pl.length ++ pl ++ md5Hex pl with hG
  have hGlen : G.length = 44 + pl.length := by
    simp [hG, ls, la, lf, ld, lh]
    omega
  have d4 : G.drop 4 = toBytesBE 4 ack ++ toBytesBE 2 fl ++
      toBytesBE 2 pl.length ++ pl ++ md5Hex pl := List.drop_left' ls
  have d8 : G.drop 8 = toBytesBE 2 fl ++ toBytesBE 2 pl.length ++ pl ++
      md5Hex pl := by
    rw [← List.drop_drop 4 4 G, d4]
    exact List.drop_left' la
  have d10 : G.drop 10 = toBytesBE 2 pl.length ++ pl ++ md5Hex pl := by
    rw [← List.drop_drop 2 8 G, d8]
    exact List.drop_left' lf
  have d12 : G.drop 12 = pl ++ md5Hex pl := by
    rw [← List.drop_drop 2 10 G, d10]
    exact List.drop_left' ld
  have sl0 : pySlice G 0 4 = toBytesBE 4 seq := by
    simp only [pySlice, List.drop_zero, Nat.sub_zero]
    exact List.take_left' ls
  have sl4 : pySlice G 4 8 = toBytesBE 4 ack := by
    simp only [pySlice, d4]
    exact List.take_left' la
  have sl8 : pySlice G 8 10 = toBytesBE 2 fl := by
    simp only [pySlice, d8]
    exact List.take_left' lf
  have sl10 : pySlice G 10 12 = toBytesBE 2 pl.length := by
    simp only [pySlice, d10]
    exact List.take_left' ld
  have sl12 : pySlice G 12 (12 + pl.length) = pl := by
    simp only [pySlice, d12, Nat.add_sub_cancel_left]
    exact List.take_left' rfl
  simp only [helpersFromBytes, sl0, sl4, sl8, sl10, sl12, hGlen,
    fromBytesBE_toBytesBE hs', fromBytesBE_toBytesBE ha',
    fromBytesBE_toBytesBE hf', fromBytesBE_toBytesBE hl',
    helpersPacketNew]
  norm_num
  rw [show 44 + pl.length - 32 = 12 + pl.length from by omega,
    ← List.drop_drop pl.length 12 G, d12]
  exact List.drop_left' rfl

/-! ## Splitting a byte string at an offset past a fixed-length prefix -/

theorem set_after_front {pre tail : List Nat} {n i : Nat}
    (h : pre.length = n) (v : Nat) :
    (pre ++ tail).set (n + i) v = pre ++ tail.set i v := by
  rw [List.set_append, if_neg (by rw [h]; omega), h, Nat.add_sub_cancel_left]

theorem getD_after_front {pre tail : List Nat} {n i : Nat}
    (h : pre.length = n) :
    (pre ++ tail).getD (n + i) 0 = tail.getD i 0 := by
  rw [List.getD_append_right _ _ _ _ (by rw [h]; omega), h,
    Nat.add_sub_cancel_left]

/-! ## Corrupting the payload region of an encoded lib frame -/

theorem libFromBytes_flip (seq ack fl : Nat) (pl F : List Nat) (i k : Nat)
    (hs : seq < 2 ^ 32) (ha : ack < 2 ^ 32) (hf : fl < 2 ^ 16)
    (hl : pl.length < 2 ^ 16) (hi : i < pl.length) (hk : k < 8)
    (hF : F = toBytesBE 4 seq ++ toBytesBE 4 ack ++ toBytesBE 2 fl ++
      toBytesBE 4 (crc32 (toBytesBE 4 seq ++ toBytesBE 4 ack ++
        toBytesBE 2 fl ++ pl) &&& 0xFFFFFFFF) ++ toBytesBE 2 pl.length ++ pl) :
    libFromBytes (F.set (16 + i) (F.getD (16 + i) 0 ^^^ 2 ^ k)) = none := by
  subst hF
  have hcs : crc32 (toBytesBE 4 seq ++ toBytesBE 4 ack ++ toBytesBE 2 fl ++
      pl) &&& 0xFFFFFFFF < 2 ^ 32 := by
    calc crc32 (toBytesBE 4 seq ++ toBytesBE 4 ack ++ toBytesBE 2 fl ++ pl) &&&
        0xFFFFFFFF ≤ 0xFFFFFFFF := Nat.and_le_right
      _ < 2 ^ 32 := by norm_num
  have hprelen : (toBytesBE 4 seq ++ toBytesBE 4 ack ++ toBytesBE 2 fl ++
      toBytesBE 4 (crc32 (toBytesBE 4 seq ++ toBytesBE 4 ack ++
        toBytesBE 2 fl ++ pl) &&& 0xFFFFFFFF) ++
      toBytesBE 2 pl.length).length = 16 := by
    simp [toBytesBE_length]
  have hset : (toBytesBE 4 seq ++ toBytesBE 4 ack ++ toBytesBE 2 fl ++
      toBytesBE 4 (crc32 (toBytesBE 4 seq ++ toBytesBE 4 ack ++
        toBytesBE 2 fl ++ pl) &&& 0xFFFFFFFF) ++
      toBytesBE 2 pl.length ++ pl).set (16 + i) ((toBytesBE 4 seq ++
        toBytesBE 4 ack ++ toBytesBE 2 fl ++
        toBytesBE 4 (crc32 (toBytesBE 4 seq ++ toBytesBE 4 ack ++
          toBytesBE 2 fl ++ pl) &&& 0xFFFFFFFF) ++
        toBytesBE 2 pl.length ++ pl).getD (16 + i) 0 ^^^ 2 ^ k) =
      toBytesBE 4 seq ++ toBytesBE 4 ack ++ toBytesBE 2 fl ++
        toBytesBE 4 (crc32 (toBytesBE 4 seq ++ toBytesBE 4 ack ++
          toBytesBE 2 fl ++ pl) &&& 0xFFFFFFFF) ++
        toBytesBE 2 pl.length ++ pl.set i (pl.getD i 0 ^^^ 2 ^ k) := by
    rw [set_after_front hprelen, getD_after_front hprelen]
  rw [hset]
  rw [show toBytesBE 2 pl.length =
    toBytesBE 2 (pl.set i (pl.getD i 0 ^^^ 2 ^ k)).length from by
      rw [List.length_set]]
  rw [libFromBytes_frame seq ack fl _ _ hs ha hf hcs
    (by rw [List.length_set]; exact hl)]
  rw [if_pos]
  have hmlen : (toBytesBE 4 seq ++ toBytesBE 4 ack ++ toBytesBE 2 fl).length
      = 10 := by simp [toBytesBE_length]
  have harg : toBytesBE 4 seq ++ toBytesBE 4 ack ++ toBytesBE 2 fl ++
      pl.set i (pl.getD i 0 ^^^ 2 ^ k) =
      (toBytesBE 4 seq ++ toBytesBE 4 ack ++ toBytesBE 2 fl ++ pl).set
        (10 + i) ((toBytesBE 4 seq ++ toBytesBE 4 ack ++ toBytesBE 2 fl ++
          pl).getD (10 + i) 0 ^^^ 2 ^ k) := by
    rw [set_after_front hmlen, getD_after_front hmlen]
  rw [harg]
  apply crc32_set_mask_ne
  · rw [List.length_append, hmlen]
    omega
  · exact hk

/-! ## Association-list facts -/

theorem alookup_aerase_ne {κ α : Type} [DecidableEq κ]
    (l : List (κ × α)) (k key : κ) (h : key ≠ k) :
    alookup (aerase l k) key = alookup l key := by
  induction l with
  | nil => rfl
  | cons hd tl ih =>
    obtain ⟨a, v⟩ := hd
    simp only [aerase, alookup]
    by_cases hak : a = k
    · rw [if_pos hak, ih]
      rw [if_neg (by rw [hak]; exact fun he => h he.symm)]
    · rw [if_neg hak]
      simp only [alookup]
      by_cases hakey : a = key
      · rw [if_pos hakey, if_pos hakey]
      · rw [if_neg hakey, if_neg hakey, ih]

theorem alookup_aerase_self {κ α : Type} [DecidableEq κ]
    (l : List (κ × α)) (k : κ) : alookup (aerase l k) k = none := by
  induction l with
  | nil => rfl
  | cons hd tl ih =>
    obtain ⟨a, v⟩ := hd
    simp only [aerase]
    by_cases hak : a = k
    · rw [if_pos hak]
      exact ih
    · rw [if_neg hak]
      simp only [alookup]
      rw [if_neg hak]
      exact ih

theorem alookup_append {κ α : Type} [DecidableEq κ]
    (l1 l2 : List (κ × α)) (key : κ) :
    alookup (l1 ++ l2) key =
      match alookup l1 key with
      | some v => some v
      | none => alookup l2 key := by
  induction l1 with
  | nil => rfl
  | cons hd tl ih =>
    obtain ⟨a, v⟩ := hd
    show alookup ((a, v) :: (tl ++ l2)) key = _
    simp only [alookup]
    by_cases hak : a = key
    · rw [if_pos hak, if_pos hak]
    · rw [if_neg hak, if_neg hak, ih]

theorem alookup_aset_self {κ α : Type} [DecidableEq κ]
    (l : List (κ × α)) (k : κ) (v : α) : alookup (aset l k v) k = some v := by
  unfold aset
  rw [alookup_append, alookup_aerase_self]
  simp [alookup]

theorem alookup_aset_ne {κ α : Type} [DecidableEq κ]
    (l : List (κ × α)) (k key : κ) (v : α) (h : key ≠ k) :
    alookup (aset l k v) key = alookup l key := by
  unfold aset
  rw [alookup_append, alookup_aerase_ne l k key h]
  cases halt : alookup l key with
  | some w => rfl
  | none =>
    simp only [alookup]
    rw [if_neg (fun he => h he.symm)]

theorem srDrainGo_none (fuel e : Nat) (buf : List (Nat × RDTPacket))
    (h : alookup buf e = none) : srDrainGo fuel e buf = ([], e, buf) := by
  cases fuel <;> simp [srDrainGo, h]

/-- If the correct ACK never arrives during the whole retry span of a
chunk, the Stop-and-Wait attempt loop reports failure. -/
theorem swAttemptsGo_exhaust (fuel : Nat) (ackArrives : Nat → Bool)
    (max_retries : Nat) :
    ∀ (t retries : Nat),
      (∀ u, u ≤ max_retries - retries → ackArrives (t + u) = false) →
      (swAttemptsGo ackArrives max_retries fuel t retries).1 = false := by
  induction fuel with
  | zero =>
    intro t retries h
    have h0 : ackArrives t = false := by
      have := h 0 (Nat.zero_le _)
      simpa using this
    simp [swAttemptsGo, h0]
  | succ fuel ih =>
    intro t retries h
    have h0 : ackArrives t = false := by
      have := h 0 (Nat.zero_le _)
      simpa using this
    simp only [swAttemptsGo, h0, Bool.false_eq_true, if_false]
    by_cases hr : retries ≥ max_retries
    · simp [hr]
    · rw [if_neg hr]
      apply ih
      intro u hu
      have hx := h (u + 1) (by omega)
      rw [show t + (u + 1) = t + 1 + u from by omega] at hx
      exact hx

/-! # Claims -/

/-- Claim C1, counterexample.  The claim states that decoding the encoding
of a packet yields a packet with the same `data_length`.  For the lib codec
(src/src/lib/helpers/message.py) this fails: `from_bytes` builds the result
with `cls()` and assigns `payload` directly, so the decoded `data_length`
is 0.  Encoding the DATA packet with payload `b"hi"` (`data_length = 2`)
and decoding it yields `data_length = 0`, a packet different from the
original. -/
theorem C1_codec_roundtrip_counterexample :
    (libToBytes ⟨⟨0, 0, 8, 2⟩, [104, 105]⟩).bind libFromBytes =
      some ⟨⟨0, 0, 8, 0⟩, [104, 105]⟩ ∧
    (⟨⟨0, 0, 8, 0⟩, [104, 105]⟩ : RDTPacket) ≠ ⟨⟨0, 0, 8, 2⟩, [104, 105]⟩ := by
  constructor
  · decide
  · decide

/-- Claim C1, amended.  For every packet with in-range header fields,
`data_length == len(payload)` and payload of at most 1024 bytes:
the digest-appended codec (src/src/helpers/message.py) round-trips the
packet exactly and the decoded frame passes `verify_integrity`; the CRC32
codec (src/src/lib/helpers/message.py) round-trips `sequence_number`,
`ack_number`, `flags` and `payload` and passes the checksum comparison, but
the decoded packet's `data_length` is 0 (so it equals the original's only
when the payload is empty). -/
theorem C1_codec_roundtrip_amended (p : RDTPacket)
    (hs : p.header.sequence_number < 2 ^ 32)
    (ha : p.header.ack_number < 2 ^ 32)
    (hf : p.header.flags < 2 ^ 16)
    (hd : p.header.data_length = p.payload.length)
    (hl : p.payload.length ≤ 1024) :
    (libToBytes p).bind libFromBytes =
      some ⟨⟨p.header.sequence_number, p.header.ack_number,
        p.header.flags, 0⟩, p.payload⟩ ∧
    (helpersToBytes p).bind helpersFromBytes = some (p, md5Hex p.payload) ∧
    helpersVerifyIntegrity (md5Hex p.payload) p.payload = true := by
  have hl16 : p.payload.length < 2 ^ 16 := by
    calc p.payload.length ≤ 1024 := hl
      _ < 2 ^ 16 := by norm_num
  refine ⟨?_, ?_, ?_⟩
  · rw [libToBytes_eq p hs ha hf hl16]
    show libFromBytes _ = _
    rw [libFromBytes_frame p.header.sequence_number p.header.ack_number
      p.header.flags _ p.payload hs ha hf
      (Nat.lt_of_le_of_lt Nat.and_le_right (by norm_num)) hl16]
    simp
  · obtain ⟨⟨s, a, f, d⟩, pl⟩ := p
    simp only at hs ha hf hd hl16
    subst hd
    rw [helpersToBytes_eq ⟨⟨s, a, f, pl.length⟩, pl⟩ hs ha hf hl16]
    show helpersFromBytes _ = _
    exact helpersFromBytes_frame s a f pl hs ha hf hl16
  · simp [helpersVerifyIntegrity]

/-- Witness for C1's amended theorem at the packet of scenario S1:
seq 5, ack 7, DATA flag, payload `b"hi"`. -/
theorem C1_codec_roundtrip_amended_witness :
    (libToBytes ⟨⟨5, 7, 8, 2⟩, [104, 105]⟩).bind libFromBytes =
      some ⟨⟨5, 7, 8, 0⟩, [104, 105]⟩ ∧
    (helpersToBytes ⟨⟨5, 7, 8, 2⟩, [104, 105]⟩).bind helpersFromBytes =
      some (⟨⟨5, 7, 8, 2⟩, [104, 105]⟩, md5Hex [104, 105]) ∧
    helpersVerifyIntegrity (md5Hex [104, 105]) [104, 105] = true :=
  C1_codec_roundtrip_amended ⟨⟨5, 7, 8, 2⟩, [104, 105]⟩ (by decide) (by decide)
    (by decide) (by decide) (by decide)

/-- Claim C2.  Corruption detection in the CRC32 codec
(src/src/lib/helpers/message.py): flip any single bit `k` of any byte `i`
of the payload region (offset `16 + i`) of an encoded frame, and
`from_bytes` recomputes a checksum that differs from the stored one, so it
returns `None` — the frame is rejected rather than delivered.  The proof
rests on the CRC register step being a linear injection, so a nonzero
single-bit difference propagates to a nonzero checksum difference.
(For the MD5 codec the same property would require that no single-bit
payload flip collides under MD5, which is out of reach of proof.) -/
theorem C2_corruption_detected (p : RDTPacket) (d : List Nat) (i k : Nat)
    (hs : p.header.sequence_number < 2 ^ 32)
    (ha : p.header.ack_number < 2 ^ 32)
    (hf : p.header.flags < 2 ^ 16)
    (hl : p.payload.length ≤ 1024)
    (henc : libToBytes p = some d)
    (hi : i < p.payload.length) (hk : k < 8) :
    libFromBytes (d.set (16 + i) (d.getD (16 + i) 0 ^^^ 2 ^ k)) = none := by
  have hl16 : p.payload.length < 2 ^ 16 := by
    calc p.payload.length ≤ 1024 := hl
      _ < 2 ^ 16 := by norm_num
  rw [libToBytes_eq p hs ha hf hl16] at henc
  have hd := (Option.some.injEq _ _).mp henc
  exact libFromBytes_flip p.header.sequence_number p.header.ack_number
    p.header.flags p.payload d i k hs ha hf hl16 hi hk hd.symm

/-- Witness for C2 at a concrete frame: the encoded DATA packet with
payload `b"hi"`, lowest bit of the first payload byte flipped. -/
theorem C2_corruption_detected_witness :
    libFromBytes (((libToBytes ⟨⟨5, 7, 8, 2⟩, [104, 105]⟩).getD []).set 16
      (((libToBytes ⟨⟨5, 7, 8, 2⟩, [104, 105]⟩).getD []).getD 16 0 ^^^ 2 ^ 0))
      = none := by
  have h := C2_corruption_detected ⟨⟨5, 7, 8, 2⟩, [104, 105]⟩
    ((libToBytes ⟨⟨5, 7, 8, 2⟩, [104, 105]⟩).getD []) 0 0 (by decide)
    (by decide) (by decide) (by decide) (by decide) (by decide) (by decide)
  simpa using h

/-- Claim C9, counterexample.  The claim asserts
`header.data_length == len(payload)` for every packet produced by the
typed constructors and by decode.  The lib codec's `create_data_packet`
(src/src/lib/helpers/message.py lines 148-153) assigns `packet.payload`
directly after `RDTPacket()`, leaving `data_length = 0` while the payload
has 2 bytes. -/
theorem C9_data_length_counterexample :
    (libCreateDataPacket 0 [104, 105]).header.data_length = 0 ∧
    (libCreateDataPacket 0 [104, 105]).payload.length = 2 := by
  decide

/-- Claim C9, amended.  The invariant `data_length == len(payload)` holds
for the lib codec's `RDTPacket.__init__` and for the helpers codec
(its constructors and its decode both pass through `__init__`); the lib
codec's typed `create_data_packet` and its `from_bytes` instead leave
`data_length = 0` regardless of the payload. -/
theorem C9_data_length_amended :
    (∀ pl : List Nat, (libPacketNew pl).header.data_length = pl.length) ∧
    (∀ (seq : Nat) (pl : List Nat),
      (helpersCreateDataPacket seq pl).header.data_length = pl.length) ∧
    (∀ (data : List Nat) (q : RDTPacket) (h : List Nat),
      helpersFromBytes data = some (q, h) →
        q.header.data_length = q.payload.length) ∧
    (∀ (seq : Nat) (pl : List Nat),
      (libCreateDataPacket seq pl).header.data_length = 0) ∧
    (∀ (data : List Nat) (q : RDTPacket),
      libFromBytes data = some q → q.header.data_length = 0) := by
  refine ⟨fun pl => rfl, fun seq pl => rfl, ?_, fun seq pl => rfl, ?_⟩
  · intro data q h hdec
    unfold helpersFromBytes at hdec
    split at hdec
    · cases hdec
    · rw [Option.some.injEq] at hdec
      have hq := congrArg Prod.fst hdec
      simp only at hq
      rw [← hq]
      rfl
  · intro data q hdec
    simp only [libFromBytes] at hdec
    split at hdec
    · cases hdec
    · split at hdec
      · cases hdec
      · split at hdec
        · cases hdec
        · split at hdec
          · cases hdec
          · rw [Option.some.injEq] at hdec
            rw [← hdec]

/-- Witness for C9's amended theorem: the two decode clauses applied to the
two codecs' encodings of the S1 packet, plus the constructor clauses at
payload `b"hi"`. -/
theorem C9_data_length_amended_witness :
    (libPacketNew [104, 105]).header.data_length = 2 ∧
    (helpersCreateDataPacket 5 [104, 105]).header.data_length = 2 ∧
    (⟨⟨5, 7, 8, 2⟩, [104, 105]⟩ : RDTPacket).header.data_length =
      (⟨⟨5, 7, 8, 2⟩, [104, 105]⟩ : RDTPacket).payload.length ∧
    (libCreateDataPacket 5 [104, 105]).header.data_length = 0 ∧
    (⟨⟨5, 7, 8, 0⟩, [104, 105]⟩ : RDTPacket).header.data_length = 0 := by
  refine ⟨C9_data_length_amended.1 [104, 105], ?_, ?_, ?_, ?_⟩
  · exact C9_data_length_amended.2.1 5 [104, 105]
  · exact C9_data_length_amended.2.2.1
      ((helpersToBytes ⟨⟨5, 7, 8, 2⟩, [104, 105]⟩).getD [])
      ⟨⟨5, 7, 8, 2⟩, [104, 105]⟩ (md5Hex [104, 105]) (by decide)
  · exact C9_data_length_amended.2.2.2.1 5 [104, 105]
  · exact C9_data_length_amended.2.2.2.2
      ((libToBytes ⟨⟨5, 7, 8, 2⟩, [104, 105]⟩).getD [])
      ⟨⟨5, 7, 8, 0⟩, [104, 105]⟩ (by decide)

/-- Claim C3.  The Stop-and-Wait receiver step
(`StopAndWaitProtocol.on_data`, lines 142-152): on a DATA packet whose
sequence number equals `expected_seq` it delivers the payload, acks that
number and flips `expected_seq`; otherwise it delivers nothing, keeps
`expected_seq`, and acks `(expected_seq - 1) % 2` — which for
`expected_seq < 2` is the last accepted sequence `(expected_seq + 1) % 2`.
In particular a replay of a delivered sequence `s` arrives at the state
`expected_seq = (s + 1) % 2`, falls into the mismatch branch, is
re-acknowledged with `ack = s`, and its bytes are not delivered again. -/
theorem C3_stop_and_wait_on_data (e : Nat) (d : RDTPacket) (he : e < 2) :
    (d.header.sequence_number = e →
      swOnData e d = (e, d.payload, (e + 1) % 2)) ∧
    (d.header.sequence_number ≠ e →
      swOnData e d = (pyMod2 ((e : Int) - 1), [], e) ∧
        pyMod2 ((e : Int) - 1) = (e + 1) % 2) := by
  constructor
  · intro h
    simp [swOnData, h]
  · intro h
    refine ⟨by simp [swOnData, h], ?_⟩
    interval_cases e <;> decide

/-- Witness for C3: the in-sequence case at `expected_seq = 0` and the
replay of sequence 0 at `expected_seq = 1`. -/
theorem C3_stop_and_wait_on_data_witness :
    swOnData 0 ⟨⟨0, 0, 8, 2⟩, [104, 105]⟩ = (0, [104, 105], 1) ∧
    swOnData 1 ⟨⟨0, 0, 8, 2⟩, [104, 105]⟩ = (0, [], 1) := by
  constructor
  · exact (C3_stop_and_wait_on_data 0 ⟨⟨0, 0, 8, 2⟩, [104, 105]⟩
      (by decide)).1 rfl
  · exact ((C3_stop_and_wait_on_data 1 ⟨⟨0, 0, 8, 2⟩, [104, 105]⟩
      (by decide)).2 (by decide)).1

/-- Claim C4.  Selective Repeat in-order delivery
(`SelectiveRepeatProtocol.on_data`, lines 238-249).  First conjunct:
scenario S3 with window 4 and arbitrary payloads — starting at base 2 and
receiving 3, 4, 2, 5 in that order, the acks are 3, 4, 2, 5, frames 3 and
4 are buffered without delivering a byte, frame 2 releases
payload(2) ++ payload(3) ++ payload(4), frame 5 delivers payload(5), and
the final base is 6.  Second conjunct: in general, an in-window frame
ahead of a gap (sequence ≠ base, base not buffered) is buffered and
nothing is delivered until the gap fills. -/
theorem C4_selective_repeat_in_order :
    (∀ p2 p3 p4 p5 : List Nat,
      srOnData 4 2 [] (helpersCreateDataPacket 3 p3) =
        ((3, [], 2), [(3, helpersCreateDataPacket 3 p3)]) ∧
      srOnData 4 2 [(3, helpersCreateDataPacket 3 p3)]
          (helpersCreateDataPacket 4 p4) =
        ((4, [], 2), [(3, helpersCreateDataPacket 3 p3),
          (4, helpersCreateDataPacket 4 p4)]) ∧
      srOnData 4 2 [(3, helpersCreateDataPacket 3 p3),
          (4, helpersCreateDataPacket 4 p4)] (helpersCreateDataPacket 2 p2) =
        ((2, p2 ++ p3 ++ p4, 5), []) ∧
      srOnData 4 5 [] (helpersCreateDataPacket 5 p5) = ((5, p5, 6), [])) ∧
    (∀ (W e : Nat) (buf : List (Nat × RDTPacket)) (d : RDTPacket),
      srInWindow d.header.sequence_number e W = true →
      d.header.sequence_number ≠ e →
      alookup buf e = none →
      srOnData W e buf d =
        ((d.header.sequence_number, [], e),
          aset buf d.header.sequence_number d)) := by
  constructor
  · intro p2 p3 p4 p5
    refine ⟨?_, ?_, ?_, ?_⟩ <;>
      simp [srOnData, srDrain, srDrainGo, srInWindow, aset, aerase, alookup,
        helpersCreateDataPacket, helpersPacketNew]
  · intro W e buf d hwin hne hbuf
    simp only [srOnData, hwin, if_pos]
    have hlook : alookup (aset buf d.header.sequence_number d) e = none := by
      rw [alookup_aset_ne buf d.header.sequence_number e d
        (fun he => hne he.symm)]
      exact hbuf
    rw [srDrain, srDrainGo_none _ _ _ hlook]

/-- Witness for C4: scenario S3 with one-byte payloads, and the gap clause
at base 5, window 8, incoming frame 7. -/
theorem C4_selective_repeat_in_order_witness :
    srOnData 4 2 [(3, helpersCreateDataPacket 3 [33]),
        (4, helpersCreateDataPacket 4 [44])] (helpersCreateDataPacket 2 [22]) =
      ((2, [22] ++ [33] ++ [44], 5), []) ∧
    srOnData 8 5 [] (helpersCreateDataPacket 7 [77]) =
      ((7, [], 5), [(7, helpersCreateDataPacket 7 [77])]) := by
  constructor
  · exact (C4_selective_repeat_in_order.1 [22] [33] [44] [55]).2.2.1
  · have h := C4_selective_repeat_in_order.2 8 5 []
      (helpersCreateDataPacket 7 [77]) (by decide) (by decide) (by decide)
    simpa [aset, aerase] using h

/-- Claim C8, counterexample.  The claim says a DATA frame beyond the
receive window is dropped: neither buffered nor acknowledged.  With
base 2 and window 8, frame 10 satisfies `(10 - 2) % 65536 = 8 ≥ 8`
(beyond the window), yet `handle_data` still emits `ACK(ack=10)` —
`on_data` returns `ack_num = seq` unconditionally and the server always
sends that ack. -/
theorem C8_beyond_window_counterexample :
    serverHandleDataSR 8 2 [] (helpersCreateDataPacket 10 [120]) =
      some (libCreateAckPacket 10, [], 2, []) ∧
    srInWindow 10 2 8 = false := by
  constructor
  · decide
  · decide

/-- Claim C8, amended.  For an established selective-repeat session, any
DATA frame with `seq ≥ 2` outside the receive window — below the base
(already delivered) or beyond `[base, base + W)` alike — is not buffered,
delivers nothing, leaves the base unchanged, and is still acknowledged
with `ack = seq`.  (Frames with `seq < 2` are dropped by the server's
guardrail with no response.) -/
theorem C8_out_of_window_amended (W e : Nat) (buf : List (Nat × RDTPacket))
    (d : RDTPacket)
    (hw : srInWindow d.header.sequence_number e W = false)
    (hbuf : alookup buf e = none)
    (hseq : 2 ≤ d.header.sequence_number) :
    serverHandleDataSR W e buf d =
      some (libCreateAckPacket d.header.sequence_number, [], e, buf) := by
  simp only [serverHandleDataSR, srOnData, hw]
  rw [if_neg (by omega)]
  simp only [Bool.false_eq_true, if_neg, ite_false]
  rw [srDrain, srDrainGo_none _ _ _ hbuf]

/-- Witness for C8's amended theorem: a below-base frame (seq 3, base 7)
is re-acknowledged with ack 3 and not buffered. -/
theorem C8_out_of_window_amended_witness :
    serverHandleDataSR 8 7 [] (helpersCreateDataPacket 3 [33]) =
      some (libCreateAckPacket 3, [], 7, []) :=
  C8_out_of_window_amended 8 7 [] (helpersCreateDataPacket 3 [33])
    (by decide) (by decide) (by decide)

/-- Claim C5, counterexample.  The claim says the server always replies
FIN|ACK with sequence number `fin.seq + 1` and removes the session.  For a
FIN with sequence number `2^32 - 1` (the largest value the 4-byte wire
field can deliver), `fin_ack.to_bytes()` must serialize `2^32`, which
raises `OverflowError`: the upload is still finalized, but no reply is
sent and — because the exception skips the `del` in
`_process_packet_for_client` — the session is not removed. -/
theorem C5_fin_overflow_counterexample :
    serverProcessFin "server_files" [(".hello.txt.upload.tmp1", [104, 105])]
      [(7, ⟨0, some "UPLOAD", some "hello.txt", true, true,
        some ".hello.txt.upload.tmp1"⟩)] 7
      ⟨⟨4294967295, 0, 4, 0⟩, []⟩ =
    ([("server_files/hello.txt", [104, 105])],
     [(7, ⟨0, some "UPLOAD", some "hello.txt", true, true,
       some ".hello.txt.upload.tmp1"⟩)], none) := by
  decide

/-- Claim C5, amended.  When the server handles a FIN for a session with an
UPLOAD in progress (operation "UPLOAD", open temp handle, filename and temp
path set, temp file present with the delivered bytes) and the FIN's
sequence number is below `2^32 - 1`: the temp file is renamed onto
`storage_dir/filename` (the final file holds exactly the delivered bytes
and the temp entry is gone), the reply is FIN|ACK (`flags = 6`) with
sequence number `fin.seq + 1` and the peer's session is removed. -/
theorem C5_upload_finalization_amended (storage fname tpath : String)
    (content : List Nat) (fs : List (String × List Nat))
    (sessions : List (Nat × ClientCtx)) (address : Nat) (ctx : ClientCtx)
    (fin : RDTPacket)
    (hsess : alookup sessions address = some ctx)
    (hop : ctx.current_operation = some "UPLOAD")
    (hfh : ctx.file_handle = true)
    (hfn : ctx.current_filename = some fname)
    (htp : ctx.temp_file_path = some tpath)
    (htmp : alookup fs tpath = some content)
    (hseq : fin.header.sequence_number + 1 < 2 ^ 32)
    (hne : tpath ≠ storage ++ "/" ++ fname) :
    (serverProcessFin storage fs sessions address fin).2.2 =
      some (setFlag (libCreateEndPacket 0 (fin.header.sequence_number + 1))
        flagACK) ∧
    (setFlag (libCreateEndPacket 0 (fin.header.sequence_number + 1))
      flagACK).header.sequence_number = fin.header.sequence_number + 1 ∧
    (setFlag (libCreateEndPacket 0 (fin.header.sequence_number + 1))
      flagACK).header.flags = 6 ∧
    alookup (serverProcessFin storage fs sessions address fin).1
      (storage ++ "/" ++ fname) = some content ∧
    alookup (serverProcessFin storage fs sessions address fin).1 tpath =
      none ∧
    alookup (serverProcessFin storage fs sessions address fin).2.1 address =
      none := by
  have hsend : libToBytes (setFlag
      (libCreateEndPacket 0 (fin.header.sequence_number + 1)) flagACK) =
      some _ :=
    libToBytes_eq (setFlag
      (libCreateEndPacket 0 (fin.header.sequence_number + 1)) flagACK)
      hseq (by decide : (0 : Nat) < 2 ^ 32)
      (by decide : (4 ||| 2 : Nat) < 2 ^ 16)
      (by decide : ([] : List Nat).length < 2 ^ 16)
  have hfs1 : serverHandleFin storage fs ctx fin =
      (aset (aerase (aerase fs (storage ++ "/" ++ fname)) tpath)
        (storage ++ "/" ++ fname) content,
       some (setFlag (libCreateEndPacket 0 (fin.header.sequence_number + 1))
         flagACK)) := by
    simp only [serverHandleFin, finalizeUpload, hop, hfh, hfn, htp, htmp,
      hsend]
    norm_num
  have hrun : serverProcessFin storage fs sessions address fin =
      (aset (aerase (aerase fs (storage ++ "/" ++ fname)) tpath)
        (storage ++ "/" ++ fname) content,
       aerase sessions address,
       some (setFlag (libCreateEndPacket 0 (fin.header.sequence_number + 1))
         flagACK)) := by
    simp only [serverProcessFin, hsess, Option.getD_some, hfs1]
  rw [hrun]
  refine ⟨rfl, rfl, ?_, ?_, ?_, ?_⟩
  · simp [setFlag, libCreateEndPacket, flagFIN, flagACK]
  · exact alookup_aset_self _ _ _
  · rw [alookup_aset_ne _ _ _ _ hne, alookup_aerase_self]
  · exact alookup_aerase_self sessions address

/-- Witness for C5's amended theorem at scenario S1: FIN seq 100 on an
upload of `b"hi"` into `hello.txt`; the reply is FIN|ACK seq 101, the final
file holds the two bytes, and the session is gone. -/
theorem C5_upload_finalization_amended_witness :
    (serverProcessFin "server_files"
      [(".hello.txt.upload.tmp1", [104, 105])]
      [(7, ⟨0, some "UPLOAD", some "hello.txt", true, true,
        some ".hello.txt.upload.tmp1"⟩)] 7 ⟨⟨100, 0, 4, 0⟩, []⟩).2.2 =
      some (setFlag (libCreateEndPacket 0 101) flagACK) ∧
    (setFlag (libCreateEndPacket 0 101) flagACK).header.sequence_number =
      101 ∧
    (setFlag (libCreateEndPacket 0 101) flagACK).header.flags = 6 ∧
    alookup (serverProcessFin "server_files"
      [(".hello.txt.upload.tmp1", [104, 105])]
      [(7, ⟨0, some "UPLOAD", some "hello.txt", true, true,
        some ".hello.txt.upload.tmp1"⟩)] 7 ⟨⟨100, 0, 4, 0⟩, []⟩).1
      ("server_files" ++ "/" ++ "hello.txt") = some [104, 105] ∧
    alookup (serverProcessFin "server_files"
      [(".hello.txt.upload.tmp1", [104, 105])]
      [(7, ⟨0, some "UPLOAD", some "hello.txt", true, true,
        some ".hello.txt.upload.tmp1"⟩)] 7 ⟨⟨100, 0, 4, 0⟩, []⟩).1
      ".hello.txt.upload.tmp1" = none ∧
    alookup (serverProcessFin "server_files"
      [(".hello.txt.upload.tmp1", [104, 105])]
      [(7, ⟨0, some "UPLOAD", some "hello.txt", true, true,
        some ".hello.txt.upload.tmp1"⟩)] 7 ⟨⟨100, 0, 4, 0⟩, []⟩).2.1 7 =
      none :=
  C5_upload_finalization_amended "server_files" "hello.txt"
    ".hello.txt.upload.tmp1" [104, 105]
    [(".hello.txt.upload.tmp1", [104, 105])]
    [(7, ⟨0, some "UPLOAD", some "hello.txt", true, true,
      some ".hello.txt.upload.tmp1"⟩)] 7
    ⟨0, some "UPLOAD", some "hello.txt", true, true,
      some ".hello.txt.upload.tmp1"⟩
    ⟨⟨100, 0, 4, 0⟩, []⟩ (by decide) rfl rfl rfl rfl rfl (by decide)
    (by decide)

/-- Claim C6, counterexample.  The claim says both engines surface failure
when a slot exhausts `max_retries` unacknowledged.  In Selective Repeat,
`handle_timeout` deletes the exhausted slot from `send_window` and
`ack_received` and its `False` only marks the slot for (re-)deletion in
`_check_timeouts`; `send_file`'s loop then sees an empty window with no data
left and returns `True`.  With one chunk, no incoming ACKs, and every
timeout firing, the slot at seq 2 is retransmitted `max_retries = 3` times
and then silently dropped, and `send_file` reports success. -/
theorem C6_sr_send_file_counterexample :
    srSendFile 10 (fun _ => none) (fun _ _ => true) [[104]] (srInit 2 8 3) =
      some (true, [2, 2, 2]) := by
  decide

/-- Claim C6, amended.  Stop-and-Wait behaves as claimed: if the matching
ACK never arrives across a chunk's whole retry span, `send_file` returns
`False`.  In Selective Repeat, `handle_timeout` on an exhausted slot
(`retries ≥ max_retries`) reports `False` and deletes the slot from
`send_window` and `ack_received`, but — as the counterexample shows — this
failure never reaches `send_file`'s return value: the transfer "succeeds"
with the exhausted slot's data silently dropped. -/
theorem C6_retry_exhaustion_amended :
    (∀ (ackArrives : Nat → Bool) (max_retries t : Nat)
       (c : List Nat) (rest : List (List Nat)),
       (∀ u, u ≤ max_retries → ackArrives (t + u) = false) →
       swSendLoop ackArrives max_retries (c :: rest) t = false) ∧
    (∀ (st : SRSender) (s : Nat) (e : SRSendEntry),
       alookup st.send_window s = some e →
       st.max_retries ≤ e.retries →
       srHandleTimeout st s =
         (false,
          ⟨st.current_seq, aerase st.send_window s, aerase st.ack_received s,
           st.duplicate_ack_count, st.window_size, st.max_retries⟩, [])) := by
  constructor
  · intro ackArrives maxR t c rest h
    have hx : (swAttempts ackArrives maxR t 0).1 = false := by
      unfold swAttempts
      exact swAttemptsGo_exhaust (maxR + 1 - 0) ackArrives maxR t 0
        (fun u hu => h u (by omega))
    simp [swSendLoop, hx]
  · intro st s e he hr
    simp only [srHandleTimeout, he]
    rw [if_pos hr]

/-- Witness for C6's amended theorem: Stop-and-Wait with a dead link fails on
a one-chunk file, and an exhausted Selective-Repeat slot (retries 3 of 3) is
deleted with a `False` report. -/
theorem C6_retry_exhaustion_amended_witness :
    swSendLoop (fun _ => false) 3 [[104]] 0 = false ∧
    srHandleTimeout ⟨5, [(2, ⟨libCreateDataPacket 2 [104], 3⟩)],
        [(2, false)], [(2, 0)], 8, 3⟩ 2 =
      (false,
       ⟨5, aerase [(2, ⟨libCreateDataPacket 2 [104], 3⟩)] 2,
        aerase [(2, (false : Bool))] 2, [(2, 0)], 8, 3⟩, []) :=
  ⟨C6_retry_exhaustion_amended.1 (fun _ => false) 3 0 [104] []
     (fun _ _ => rfl),
   C6_retry_exhaustion_amended.2
     ⟨5, [(2, ⟨libCreateDataPacket 2 [104], 3⟩)], [(2, false)], [(2, 0)], 8, 3⟩
     2 ⟨libCreateDataPacket 2 [104], 3⟩ (by decide) (by decide)⟩

/-- Claim C7, counterexample.  The claim says three duplicate ACKs for an
outstanding, not-yet-acknowledged slot `s` trigger immediate retransmission
of `s`.  In the source, an ACK for an un-acked slot takes the
`ack_received[s] = False` branch, which only marks the slot and resets its
duplicate counter; duplicates are counted solely in the already-acked
branch.  Sender state: slots 2 and 3 outstanding and un-acked (slot 3's ACK
count starts at 0).  Three ACKs in a row for `s = 3` retransmit nothing: the
first marks the slot, the next two merely raise `duplicate_ack_count[3]` to
2, and slot 3 keeps `retries = 0`. -/
theorem C7_fast_retransmit_counterexample :
    (let st0 : SRSender :=
       ⟨4, [(2, ⟨libCreateDataPacket 2 [104], 0⟩),
            (3, ⟨libCreateDataPacket 3 [105], 0⟩)],
        [(2, false), (3, false)], [(2, 0), (3, 0)], 8, 3⟩
     let r1 := srOnAck st0 (libCreateAckPacket 3)
     let r2 := srOnAck r1.2.1 (libCreateAckPacket 3)
     let r3 := srOnAck r2.2.1 (libCreateAckPacket 3)
     r1.2.2 = [] ∧ r2.2.2 = [] ∧ r3.2.2 = [] ∧
       alookup r3.2.1.send_window 3 =
         some ⟨libCreateDataPacket 3 [105], 0⟩ ∧
       alookup r3.2.1.duplicate_ack_count 3 = some 2) := by
  decide

/-- Claim C7, amended.  Fast retransmit does fire, but one ACK later than
claimed: when a slot `s` still in the send window is already marked
acknowledged (`ack_received[s] = True`, which the first ACK for `s` causes)
and has accumulated `duplicate_ack_count[s] = 2`, the next ACK for `s` —
the fourth ACK overall, the third counted duplicate — raises the counter to
3 and immediately retransmits the stored packet at `s` through
`handle_timeout`, bumping its `retries` (provided `retries < max_retries`;
an exhausted slot is deleted instead). -/
theorem C7_fast_retransmit_amended (st : SRSender) (a : RDTPacket)
    (e : SRSendEntry)
    (hflag : hasFlag a flagACK = true)
    (har : alookup st.ack_received a.header.ack_number = some true)
    (hdup : alookup st.duplicate_ack_count a.header.ack_number = some 2)
    (he : alookup st.send_window a.header.ack_number = some e)
    (hr : e.retries < st.max_retries) :
    srOnAck st a =
      (true,
       ⟨st.current_seq,
        aset st.send_window a.header.ack_number ⟨e.packet, e.retries + 1⟩,
        st.ack_received,
        aset st.duplicate_ack_count a.header.ack_number 3,
        st.window_size, st.max_retries⟩,
       [a.header.ack_number]) := by
  have hnr : ¬ e.retries ≥ st.max_retries := by omega
  simp only [srOnAck, hflag, not_true, if_false, har, srHandleAckNum, hdup,
    Option.getD_some, srFastRetransmit, he, Option.isSome_some, if_true,
    srHandleTimeout]
  norm_num [hnr]

/-- Witness for C7's amended theorem: the fourth ACK for slot 3 (counter at
2, slot acked, retries 0 of 3) retransmits packet 3 and bumps its retry
count. -/
theorem C7_fast_retransmit_amended_witness :
    srOnAck ⟨4, [(2, ⟨libCreateDataPacket 2 [104], 0⟩),
                 (3, ⟨libCreateDataPacket 3 [105], 0⟩)],
             [(2, false), (3, true)], [(2, 0), (3, 2)], 8, 3⟩
        (libCreateAckPacket 3) =
      (true,
       ⟨4, aset [(2, ⟨libCreateDataPacket 2 [104], 0⟩),
                 (3, ⟨libCreateDataPacket 3 [105], 0⟩)] 3
             ⟨libCreateDataPacket 3 [105], 1⟩,
        [(2, false), (3, true)],
        aset [(2, 0), (3, 2)] 3 3, 8, 3⟩, [3]) :=
  C7_fast_retransmit_amended
    ⟨4, [(2, ⟨libCreateDataPacket 2 [104], 0⟩),
         (3, ⟨libCreateDataPacket 3 [105], 0⟩)],
     [(2, false), (3, true)], [(2, 0), (3, 2)], 8, 3⟩
    (libCreateAckPacket 3) ⟨libCreateDataPacket 3 [105], 0⟩
    (by decide) (by decide) (by decide) (by decide) (by decide)

/-- Claim C10.  The claim says a supplied destination path is honored.
`download_main` parses `-d`/`--dst` into `dest_path` but calls
`download_file(client_socket, addr, filename, protocol, verbose)` with
`filename = args.name` only, so the finalization is identical for every
destination argument: the download lands at the remote name in the current
working directory, and nothing is ever written at the supplied destination.
Concretely, `-d /tmp/out.bin -n hello.txt` produces `./hello.txt` and no
`/tmp/out.bin`. -/
theorem C10_download_destination_ignored :
    (∀ (dst : Option String) (name : String) (fs : List (String × List Nat))
       (temp : String),
       downloadMainFinalize dst name fs temp =
         downloadFileFinalize name fs temp) ∧
    downloadMainFinalize (some "/tmp/out.bin") "hello.txt"
      [(".hello.txt.download.tmp", [104, 105])] ".hello.txt.download.tmp" =
      [("hello.txt", [104, 105])] ∧
    alookup (downloadMainFinalize (some "/tmp/out.bin") "hello.txt"
      [(".hello.txt.download.tmp", [104, 105])] ".hello.txt.download.tmp")
      "/tmp/out.bin" = none := by
  refine ⟨fun _ _ _ _ => rfl, ?_, ?_⟩ <;> decide
